import Mathlib

set_option autoImplicit false

/-!
Shallow embedding of the dockertestx test-helper library.

The library starts throwaway service containers (MySQL, PostgreSQL, Redis,
Memcached, DynamoDB Local, MinIO, RabbitMQ), waits for readiness via a
retry loop, returns a connected client plus a cleanup callback, and offers
small fixture-preparation helpers.  The embedding models:

* `dockertest.RunOptions` restricted to the fields this library touches,
  and the functional-option merging loop `for _, opt := range runOpts`;
* `internal.GetEnvValue`;
* each lifecycle helper as a function from an oracle (`DockerEnv`,
  recording the outcomes of the external docker/pool operations) to a
  trace of observable actions plus an outcome (test aborted via
  `t.Fatalf`, or a connected client plus a teardown description);
* each fixture-preparation helper as a function from a store-call oracle
  to the list of store calls it issues plus its returned error.
-/

/-- The fields of `dockertest.RunOptions` that dockertestx reads or writes:
`Repository`, `Tag`, `Env` and `Cmd`. -/
structure RunOptions where
  repository : String := ""
  tag : String := ""
  env : List String := []
  cmd : List String := []
deriving DecidableEq, Repr

/-- A functional option mutating a `RunOptions` (Go `func(*dockertest.RunOptions)`),
modelled as a function `RunOptions → RunOptions`. -/
def RunOption : Type := RunOptions → RunOptions

/-- The option-merging loop shared by every `*WithOptions` helper:
`for _, opt := range runOpts { opt(defaultRunOpts) }`. -/
def applyRunOptions (defaults : RunOptions) (runOpts : List RunOption) : RunOptions :=
  runOpts.foldl (fun cfg opt => opt cfg) defaults

/-- Defaults of `RunMySQLWithOptions` (src/sql/sql.go). -/
def mysqlDefaultRunOpts : RunOptions :=
  { repository := "mysql", tag := "8.0"
    env := ["MYSQL_ROOT_PASSWORD=secret", "MYSQL_DATABASE=test"] }

/-- Defaults of `RunPostgresWithOptions` (src/sql/sql.go). -/
def postgresDefaultRunOpts : RunOptions :=
  { repository := "postgres", tag := "13"
    env := ["POSTGRES_PASSWORD=secret", "POSTGRES_DB=test"] }

/-- Defaults of `NewRedisWithOptions` (redis package). -/
def redisDefaultRunOpts : RunOptions :=
  { repository := "redis", tag := "7.2" }

/-- Defaults of `NewMemcachedWithOptions` (root package). -/
def memcachedDefaultRunOpts : RunOptions :=
  { repository := "memcached", tag := "1.6.18" }

/-- Defaults of `NewDynamoDBWithOptions` (src/dynamodb/dynamodb.go). -/
def dynamoDBDefaultRunOpts : RunOptions :=
  { repository := "amazon/dynamodb-local", tag := "latest" }

/-- Defaults of `minio.RunWithOptions` (src/minio/minio.go). -/
def minioDefaultRunOpts : RunOptions :=
  { repository := "minio/minio", tag := "latest"
    env := ["MINIO_ROOT_USER=minioadmin", "MINIO_ROOT_PASSWORD=minioadmin"]
    cmd := ["server", "/data"] }

/-- Defaults of `rabbitmq.RunWithOptions` (rabbitmq package). -/
def rabbitMQDefaultRunOpts : RunOptions :=
  { repository := "rabbitmq", tag := "3-management"
    env := ["RABBITMQ_DEFAULT_USER=guest", "RABBITMQ_DEFAULT_PASS=guest"] }

/-- Go `v[:n]` on a string (first `n` bytes; modelled on characters). -/
def strTake (s : String) (n : Nat) : String :=
  String.mk (s.data.take n)

/-- Go `v[n:]` on a string. -/
def strDrop (s : String) (n : Nat) : String :=
  String.mk (s.data.drop n)

/-- The loop body of `internal.GetEnvValue`: scan the env slice for the first
entry `v` with `len(v) >= len(p) && v[:len(p)] == p` and return `v[len(p):]`. -/
def getEnvValueLoop (p : String) : List String → String
  | [] => ""
  | v :: rest =>
    if p.length ≤ v.length ∧ strTake v p.length = p then strDrop v p.length
    else getEnvValueLoop p rest

/-- `internal.GetEnvValue(env, key)` (src/internal/internal.go): searches the
environment-variable slice for `key ++ "="` and returns the value. -/
def GetEnvValue (env : List String) (key : String) : String :=
  getEnvValueLoop (key ++ "=") env

/-- The text after the first "=" of a string (the empty string when the string
has no "="); this is the phrasing the specification uses to describe
`GetEnvValue` and is compared against what the code computes. -/
def textAfterFirstEq (s : String) : String :=
  String.mk ((s.data.dropWhile (fun c => c ≠ '=')).drop 1)

/-- Observable actions a helper performs against docker, the pool, the test
object `t` or the database handle. -/
inductive Act where
  | newPool
  | runContainer (cfg : RunOptions)
  | getHostPort (port : String)
  | getPort (port : String)
  | retry
  | purge
  | closeClient
  | log (msg : String)
  | fatalf (msg : String)
  | execSQL (stmt : String)
  | beginTx
  | txExec (stmt : String)
  | rollbackTx
  | commitTx
deriving DecidableEq, Repr

/-- Whether an action is a container start. -/
def Act.isRunContainer : Act → Bool
  | .runContainer _ => true
  | _ => false

/-- The configuration handed to `pool.RunWithOptions`, read off a trace. -/
def containerConfig? (tr : List Act) : Option RunOptions :=
  tr.findSome? fun a => match a with
    | .runContainer cfg => some cfg
    | _ => none

/-- Shape of a lifecycle helper's teardown callback: which docker resources it
releases, and the log-message stems it uses on failure.  `closeAndPurge`
closes the client and then purges the container; `purgeOnly` only purges. -/
inductive CleanupKind where
  | closeAndPurge (closeMsg purgeMsg : String)
  | purgeOnly (purgeMsg : String)
deriving DecidableEq, Repr

/-- Executing a teardown callback, given the outcomes of `Close` and
`pool.Purge` (`none` = success, `some e` = the error).  Errors are only
logged; the purge is attempted unconditionally. -/
def runCleanup (kind : CleanupKind) (closeErr purgeErr : Option String) : List Act :=
  match kind with
  | .closeAndPurge closeMsg purgeMsg =>
    [Act.closeClient]
      ++ (closeErr.map (fun e => Act.log (closeMsg ++ ": " ++ e))).toList
      ++ [Act.purge]
      ++ (purgeErr.map (fun e => Act.log (purgeMsg ++ ": " ++ e))).toList
  | .purgeOnly purgeMsg =>
    [Act.purge]
      ++ (purgeErr.map (fun e => Act.log (purgeMsg ++ ": " ++ e))).toList

/-- Oracle for the external docker operations a lifecycle helper performs:
the outcome of `dockertest.NewPool`, of `pool.RunWithOptions`, the host port
the container was assigned (`""` = none), and the final outcome of the
`pool.Retry` connect loop (`none` = the probe eventually succeeded). -/
structure DockerEnv where
  poolErr : Option String
  runErr : Option String
  hostPort : String
  connectErr : Option String
deriving DecidableEq, Repr

/-- Result of a lifecycle helper: either the test was aborted via `t.Fatalf`
(the helper returns nothing to its caller), or a client plus the teardown
callback are returned.  There is no error-value alternative, mirroring the
Go signatures `(client, func())`. -/
inductive Outcome (α : Type) where
  | fatal (msg : String)
  | ok (client : α) (cleanup : CleanupKind)
deriving DecidableEq, Repr

/-- A lifecycle helper run: the trace of external actions and the outcome. -/
structure LifecycleRun (α : Type) where
  trace : List Act
  outcome : Outcome α
deriving DecidableEq, Repr

/-- Teardown shape of `NewRedisWithOptions`: close the client, purge. -/
def redisCleanupKind : CleanupKind :=
  .closeAndPurge "failed to close Redis client" "failed to remove redis container"

/-- Teardown shape of `RunDockerDB`: close the `*sql.DB`, purge. -/
def dbCleanupKind (driverName : String) : CleanupKind :=
  .closeAndPurge "failed to close DB" ("failed to remove " ++ driverName ++ " container")

/-- Teardown shape of `NewMemcachedWithOptions`: purge only. -/
def memcachedCleanupKind : CleanupKind :=
  .purgeOnly "failed to remove memcached container"

/-- Teardown shape of `minio.RunWithOptions`: purge only. -/
def minioCleanupKind : CleanupKind :=
  .purgeOnly "failed to remove MinIO container"

/-- Teardown shape of `NewDynamoDBWithOptions`: purge only. -/
def dynamoDBCleanupKind : CleanupKind :=
  .purgeOnly "failed to remove dynamodb container"

/-- Teardown shape of `rabbitmq.RunWithOptions`: close the connection, purge. -/
def rabbitMQCleanupKind : CleanupKind :=
  .closeAndPurge "failed to close RabbitMQ connection" "failed to remove rabbitmq container"

/-- A `*redis.Client`; `verified` records whether it answered a `Ping`. -/
structure RedisClient where
  addr : String
  verified : Bool
deriving DecidableEq, Repr

/-- A `*memcache.Client`; `verified` records whether it answered a `Get` probe. -/
structure MemcacheClient where
  addr : String
  verified : Bool
deriving DecidableEq, Repr

/-- A `*sql.DB`; `verified` records whether it answered `PingContext`. -/
structure DBClient where
  dsn : String
  verified : Bool
deriving DecidableEq, Repr

/-- An S3 client configured for MinIO; `verified` records whether it answered
a `ListBuckets` probe. -/
structure MinioClient where
  endpoint : String
  accessKey : String
  secretKey : String
  verified : Bool
deriving DecidableEq, Repr

/-- A `*dynamodb.Client`; `verified` records whether it answered `ListTables`. -/
structure DynamoClient where
  endpoint : String
  verified : Bool
deriving DecidableEq, Repr

/-- An `*amqp.Connection`; `verified` records whether the AMQP dial succeeded. -/
structure AmqpConnection where
  url : String
  verified : Bool
deriving DecidableEq, Repr

/-- Final iteration of the redis `pool.Retry` callback: build the client and
`Ping` it; `connectErr` is the probe's result. -/
def redisConnect (addr : String) (connectErr : Option String) :
    RedisClient × Option String :=
  ({ addr := addr, verified := connectErr.isNone }, connectErr)

/-- Final iteration of the memcached `pool.Retry` callback: build the client
and probe it with a `Get` of a non-existent key. -/
def memcacheConnect (addr : String) (connectErr : Option String) :
    MemcacheClient × Option String :=
  ({ addr := addr, verified := connectErr.isNone }, connectErr)

/-- Final iteration of the `RunDockerDB` retry callback: `sql.Open` on the DSN
and `PingContext`. -/
def dbConnect (dsn : String) (connectErr : Option String) :
    DBClient × Option String :=
  ({ dsn := dsn, verified := connectErr.isNone }, connectErr)

/-- Final iteration of the MinIO retry callback: build the S3 client and probe
it with `ListBuckets`. -/
def minioConnect (endpoint accessKey secretKey : String) (connectErr : Option String) :
    MinioClient × Option String :=
  ({ endpoint := endpoint, accessKey := accessKey, secretKey := secretKey
     verified := connectErr.isNone }, connectErr)

/-- Final iteration of the DynamoDB retry callback: build the client and probe
it with `ListTables`. -/
def dynamoConnect (endpoint : String) (connectErr : Option String) :
    DynamoClient × Option String :=
  ({ endpoint := endpoint, verified := connectErr.isNone }, connectErr)

/-- Final iteration of the RabbitMQ retry callback: `amqp.Dial` the URL. -/
def amqpDial (url : String) (connectErr : Option String) :
    AmqpConnection × Option String :=
  ({ url := url, verified := connectErr.isNone }, connectErr)

/-- `NewRedisWithOptions` (redis package): pool, defaults + options, start
container, host port check, retry-connect with `Ping`, return client plus
cleanup; on failure after the container started, purge then `t.Fatalf`. -/
def NewRedisWithOptions (runOpts : List RunOption) (env : DockerEnv) :
    LifecycleRun RedisClient :=
  match env.poolErr with
  | some e =>
    ⟨[Act.newPool, Act.fatalf ("failed to connect to docker: " ++ e)],
     .fatal ("failed to connect to docker: " ++ e)⟩
  | none =>
    let cfg := applyRunOptions redisDefaultRunOpts runOpts
    match env.runErr with
    | some e =>
      ⟨[Act.newPool, Act.runContainer cfg,
        Act.fatalf ("failed to start redis container: " ++ e)],
       .fatal ("failed to start redis container: " ++ e)⟩
    | none =>
      let actualPort := env.hostPort
      if actualPort = "" then
        ⟨[Act.newPool, Act.runContainer cfg, Act.getHostPort "6379/tcp", Act.purge,
          Act.fatalf "no host port was assigned for the redis container"],
         .fatal "no host port was assigned for the redis container"⟩
      else
        let pre := [Act.newPool, Act.runContainer cfg, Act.getHostPort "6379/tcp",
          Act.log ("redis container is running on host port '" ++ actualPort ++ "'"),
          Act.retry]
        match env.connectErr with
        | some e =>
          ⟨pre ++ [Act.purge, Act.fatalf ("could not connect to redis: " ++ e)],
           .fatal ("could not connect to redis: " ++ e)⟩
        | none =>
          ⟨pre, .ok (redisConnect actualPort none).1 redisCleanupKind⟩

/-- `NewMemcachedWithOptions` (root package): same shape as redis, with a
`Get` readiness probe and a purge-only cleanup. -/
def NewMemcachedWithOptions (runOpts : List RunOption) (env : DockerEnv) :
    LifecycleRun MemcacheClient :=
  match env.poolErr with
  | some e =>
    ⟨[Act.newPool, Act.fatalf ("failed to connect to docker: " ++ e)],
     .fatal ("failed to connect to docker: " ++ e)⟩
  | none =>
    let cfg := applyRunOptions memcachedDefaultRunOpts runOpts
    match env.runErr with
    | some e =>
      ⟨[Act.newPool, Act.runContainer cfg,
        Act.fatalf ("failed to start memcached container: " ++ e)],
       .fatal ("failed to start memcached container: " ++ e)⟩
    | none =>
      let actualPort := env.hostPort
      if actualPort = "" then
        ⟨[Act.newPool, Act.runContainer cfg, Act.getHostPort "11211/tcp", Act.purge,
          Act.fatalf "no host port was assigned for the memcached container"],
         .fatal "no host port was assigned for the memcached container"⟩
      else
        let pre := [Act.newPool, Act.runContainer cfg, Act.getHostPort "11211/tcp",
          Act.log ("memcached container is running on host port '" ++ actualPort ++ "'"),
          Act.retry]
        match env.connectErr with
        | some e =>
          ⟨pre ++ [Act.purge, Act.fatalf ("could not connect to memcached: " ++ e)],
           .fatal ("could not connect to memcached: " ++ e)⟩
        | none =>
          ⟨pre, .ok (memcacheConnect actualPort none).1 memcachedCleanupKind⟩

/-- `RunDockerDB` (src/sql/sql.go): the generic SQL lifecycle helper shared by
MySQL and PostgreSQL; `dsnFunc` builds the DSN from the assigned host port. -/
def RunDockerDB (runOpts : RunOptions) (containerPort driverName : String)
    (dsnFunc : String → String) (env : DockerEnv) : LifecycleRun DBClient :=
  match env.poolErr with
  | some e =>
    ⟨[Act.newPool, Act.fatalf ("failed to connect to docker: " ++ e)],
     .fatal ("failed to connect to docker: " ++ e)⟩
  | none =>
    match env.runErr with
    | some e =>
      ⟨[Act.newPool, Act.runContainer runOpts,
        Act.fatalf ("failed to start " ++ driverName ++ " container: " ++ e)],
       .fatal ("failed to start " ++ driverName ++ " container: " ++ e)⟩
    | none =>
      let actualPort := env.hostPort
      if actualPort = "" then
        ⟨[Act.newPool, Act.runContainer runOpts, Act.getHostPort containerPort, Act.purge,
          Act.fatalf ("no host port was assigned for the " ++ driverName ++ " container")],
         .fatal ("no host port was assigned for the " ++ driverName ++ " container")⟩
      else
        let pre := [Act.newPool, Act.runContainer runOpts, Act.getHostPort containerPort,
          Act.log (driverName ++ " container is running on host port '" ++ actualPort ++ "'"),
          Act.retry]
        match env.connectErr with
        | some e =>
          ⟨pre ++ [Act.purge, Act.fatalf ("failed to connect to " ++ driverName ++ ": " ++ e)],
           .fatal ("failed to connect to " ++ driverName ++ ": " ++ e)⟩
        | none =>
          ⟨pre, .ok (dbConnect (dsnFunc actualPort) none).1 (dbCleanupKind driverName)⟩

/-- The MySQL DSN format of `RunMySQLWithOptions`. -/
def mysqlDSN (pass db actualPort : String) : String :=
  "root:" ++ pass ++ "@tcp(" ++ actualPort ++ ")/" ++ db ++ "?parseTime=true"

/-- The PostgreSQL DSN format of `RunPostgresWithOptions`. -/
def postgresDSN (pass db actualPort : String) : String :=
  "postgres://postgres:" ++ pass ++ "@" ++ actualPort ++ "/" ++ db ++ "?sslmode=disable"

/-- `RunMySQLWithOptions` (src/sql/sql.go): merge options into the MySQL
defaults, read the credentials back out of the merged `Env`, and delegate to
`RunDockerDB`. -/
def RunMySQLWithOptions (runOpts : List RunOption) (env : DockerEnv) :
    LifecycleRun DBClient :=
  let cfg := applyRunOptions mysqlDefaultRunOpts runOpts
  let pass := GetEnvValue cfg.env "MYSQL_ROOT_PASSWORD"
  let db := GetEnvValue cfg.env "MYSQL_DATABASE"
  RunDockerDB cfg "3306/tcp" "mysql" (fun actualPort => mysqlDSN pass db actualPort) env

/-- `RunPostgresWithOptions` (src/sql/sql.go). -/
def RunPostgresWithOptions (runOpts : List RunOption) (env : DockerEnv) :
    LifecycleRun DBClient :=
  let cfg := applyRunOptions postgresDefaultRunOpts runOpts
  let pass := GetEnvValue cfg.env "POSTGRES_PASSWORD"
  let db := GetEnvValue cfg.env "POSTGRES_DB"
  RunDockerDB cfg "5432/tcp" "postgres" (fun actualPort => postgresDSN pass db actualPort) env

/-- `NewDynamoDBWithOptions` (src/dynamodb/dynamodb.go): uses `GetPort` (bare
port number) and a `ListTables` readiness probe; purge-only cleanup. -/
def NewDynamoDBWithOptions (runOpts : List RunOption) (env : DockerEnv) :
    LifecycleRun DynamoClient :=
  match env.poolErr with
  | some e =>
    ⟨[Act.newPool, Act.fatalf ("failed to connect to docker: " ++ e)],
     .fatal ("failed to connect to docker: " ++ e)⟩
  | none =>
    let cfg := applyRunOptions dynamoDBDefaultRunOpts runOpts
    match env.runErr with
    | some e =>
      ⟨[Act.newPool, Act.runContainer cfg,
        Act.fatalf ("failed to start dynamodb container: " ++ e)],
       .fatal ("failed to start dynamodb container: " ++ e)⟩
    | none =>
      let actualPort := env.hostPort
      if actualPort = "" then
        ⟨[Act.newPool, Act.runContainer cfg, Act.getPort "8000/tcp", Act.purge,
          Act.fatalf "no host port was assigned for the dynamodb container"],
         .fatal "no host port was assigned for the dynamodb container"⟩
      else
        let endpoint := "http://localhost:" ++ actualPort
        let pre := [Act.newPool, Act.runContainer cfg, Act.getPort "8000/tcp",
          Act.log ("DynamoDB container is running on host port '" ++ actualPort ++ "'"),
          Act.retry]
        match env.connectErr with
        | some e =>
          ⟨pre ++ [Act.purge, Act.fatalf ("failed to connect to dynamodb: " ++ e)],
           .fatal ("failed to connect to dynamodb: " ++ e)⟩
        | none =>
          ⟨pre, .ok (dynamoConnect endpoint none).1 dynamoDBCleanupKind⟩

/-- Go `strings.TrimPrefix(s, pre)`. -/
def dropLeading (pre s : String) : String :=
  if pre.length ≤ s.length ∧ strTake s pre.length = pre then strDrop s pre.length else s

/-- `minio.RunWithOptions` (src/minio/minio.go): strips a `localhost:` lead
from the host port, reads the credentials out of the merged `Env`, probes with
`ListBuckets`; purge-only cleanup. -/
def Minio.RunWithOptions (runOpts : List RunOption) (env : DockerEnv) :
    LifecycleRun MinioClient :=
  let cfg := applyRunOptions minioDefaultRunOpts runOpts
  match env.poolErr with
  | some e =>
    ⟨[Act.newPool, Act.fatalf ("failed to connect to docker: " ++ e)],
     .fatal ("failed to connect to docker: " ++ e)⟩
  | none =>
    match env.runErr with
    | some e =>
      ⟨[Act.newPool, Act.runContainer cfg,
        Act.fatalf ("failed to start MinIO container: " ++ e)],
       .fatal ("failed to start MinIO container: " ++ e)⟩
    | none =>
      let rawPort := env.hostPort
      if rawPort = "" then
        ⟨[Act.newPool, Act.runContainer cfg, Act.getHostPort "9000/tcp", Act.purge,
          Act.fatalf "no host port was assigned for the MinIO container"],
         .fatal "no host port was assigned for the MinIO container"⟩
      else
        let actualPort := dropLeading "localhost:" rawPort
        let accessKey := GetEnvValue cfg.env "MINIO_ROOT_USER"
        let secretKey := GetEnvValue cfg.env "MINIO_ROOT_PASSWORD"
        let endpoint := "http://localhost:" ++ actualPort
        let pre := [Act.newPool, Act.runContainer cfg, Act.getHostPort "9000/tcp",
          Act.log ("MinIO container is running on host port '" ++ rawPort ++ "'"),
          Act.log ("Connecting to MinIO endpoint: " ++ endpoint ++ " with credentials "
            ++ accessKey ++ ":" ++ secretKey),
          Act.retry]
        match env.connectErr with
        | some e =>
          ⟨pre ++ [Act.purge, Act.fatalf ("failed to connect to MinIO: " ++ e)],
           .fatal ("failed to connect to MinIO: " ++ e)⟩
        | none =>
          ⟨pre, .ok (minioConnect endpoint accessKey secretKey none).1 minioCleanupKind⟩

/-- `rabbitmq.RunWithOptions` (rabbitmq package): dials
`amqp://guest:guest@<port>/`; close-then-purge cleanup. -/
def RabbitMQ.RunWithOptions (runOpts : List RunOption) (env : DockerEnv) :
    LifecycleRun AmqpConnection :=
  match env.poolErr with
  | some e =>
    ⟨[Act.newPool, Act.fatalf ("failed to connect to docker: " ++ e)],
     .fatal ("failed to connect to docker: " ++ e)⟩
  | none =>
    let cfg := applyRunOptions rabbitMQDefaultRunOpts runOpts
    match env.runErr with
    | some e =>
      ⟨[Act.newPool, Act.runContainer cfg,
        Act.fatalf ("failed to start rabbitmq container: " ++ e)],
       .fatal ("failed to start rabbitmq container: " ++ e)⟩
    | none =>
      let actualPort := env.hostPort
      if actualPort = "" then
        ⟨[Act.newPool, Act.runContainer cfg, Act.getHostPort "5672/tcp", Act.purge,
          Act.fatalf "no host port was assigned for the rabbitmq container"],
         .fatal "no host port was assigned for the rabbitmq container"⟩
      else
        let url := "amqp://guest:guest@" ++ actualPort ++ "/"
        let pre := [Act.newPool, Act.runContainer cfg, Act.getHostPort "5672/tcp",
          Act.log ("rabbitmq container is running on host port '" ++ actualPort ++ "'"),
          Act.retry]
        match env.connectErr with
        | some e =>
          ⟨pre ++ [Act.purge, Act.fatalf ("could not connect to rabbitmq: " ++ e)],
           .fatal ("could not connect to rabbitmq: " ++ e)⟩
        | none =>
          ⟨pre, .ok (amqpDial url none).1 rabbitMQCleanupKind⟩

/-- A Go error built with `fmt.Errorf(..., %w, err)`: the rendered text and
the wrapped underlying error. -/
structure PrepError where
  text : String
  wrapped : String
deriving DecidableEq, Repr

/-- A `client.Set(ctx, key, value, expiration)` call issued by `PrepRedis`. -/
structure RedisSetCall (V : Type) where
  key : String
  value : V
  expiration : Int
deriving DecidableEq, Repr

/-- `redis.PrepRedis` (redis package): store each key/value pair with the
given expiration; on the first failing `Set`, stop and return an error
naming the key and wrapping the underlying error.  `set` is the store
oracle (the outcome of `client.Set(...).Err()`); the first component is
the list of `Set` calls actually issued, in order. -/
def PrepRedis {V : Type} (set : String → V → Int → Option String) :
    List (String × V) → Int → List (RedisSetCall V) × Option PrepError
  | [], _ => ([], none)
  | (k, v) :: rest, expiration =>
    match set k v expiration with
    | some e =>
      ([⟨k, v, expiration⟩],
       some ⟨"failed to set item with key '" ++ k ++ "': " ++ e, e⟩)
    | none =>
      let r := PrepRedis set rest expiration
      (⟨k, v, expiration⟩ :: r.1, r.2)

/-- A `client.ZAdd(ctx, key, redis.Z{score, member})` call. -/
structure ZAddCall (S : Type) where
  key : String
  member : String
  score : S
deriving DecidableEq, Repr

/-- `redis.PrepRedisSortedSet`: add each member/score pair to the sorted set;
stop at the first failing `ZAdd` with an error naming the member and the key. -/
def PrepRedisSortedSet {S : Type} (zadd : String → String → S → Option String)
    (key : String) : List (String × S) → List (ZAddCall S) × Option PrepError
  | [] => ([], none)
  | (m, sc) :: rest =>
    match zadd key m sc with
    | some e =>
      ([⟨key, m, sc⟩],
       some ⟨"failed to add member '" ++ m ++ "' to sorted set '" ++ key ++ "': " ++ e, e⟩)
    | none =>
      let r := PrepRedisSortedSet zadd key rest
      (⟨key, m, sc⟩ :: r.1, r.2)

/-- A `*memcache.Item` (the fields `Key`, `Value`, `Flags`, `Expiration`). -/
structure MemcacheItem where
  key : String
  value : String
  flags : Nat
  expiration : Int
deriving DecidableEq, Repr

/-- The mutation `PrepMemcached` performs on each item before `Set`:
`if item.Expiration == 0 { item.Expiration = int32(time.Hour.Seconds()) }`. -/
def memcacheDefaulted (item : MemcacheItem) : MemcacheItem :=
  if item.expiration = 0 then { item with expiration := 3600 } else item

/-- `dockertestx.PrepMemcached` (root package): default each item's zero
expiration to one hour, then `Set` it; stop at the first failing `Set`. -/
def PrepMemcached (set : MemcacheItem → Option String) :
    List MemcacheItem → List MemcacheItem × Option PrepError
  | [] => ([], none)
  | item :: rest =>
    let item' := memcacheDefaulted item
    match set item' with
    | some e =>
      ([item'], some ⟨"failed to set item with key '" ++ item'.key ++ "': " ++ e, e⟩)
    | none =>
      let r := PrepMemcached set rest
      (item' :: r.1, r.2)

/-- A `client.PutItem` call issued by `PrepDynamoDBItems`. -/
structure PutItemCall (V : Type) where
  tableName : String
  item : V
deriving DecidableEq, Repr

/-- The indexed loop of `PrepDynamoDBItems`; `i` is the index used in the
error message `failed to insert item %d into table %s`. -/
def prepDynamoDBItemsLoop {V : Type} (put : String → V → Option String)
    (tableName : String) : Nat → List V → List (PutItemCall V) × Option PrepError
  | _, [] => ([], none)
  | i, item :: rest =>
    match put tableName item with
    | some e =>
      ([⟨tableName, item⟩],
       some ⟨"failed to insert item " ++ toString i ++ " into table " ++ tableName
               ++ ": " ++ e, e⟩)
    | none =>
      let r := prepDynamoDBItemsLoop put tableName (i + 1) rest
      (⟨tableName, item⟩ :: r.1, r.2)

/-- `dynamodb.PrepDynamoDBItems` (src/dynamodb/dynamodb.go). -/
def PrepDynamoDBItems {V : Type} (put : String → V → Option String)
    (tableName : String) (items : List V) : List (PutItemCall V) × Option PrepError :=
  prepDynamoDBItemsLoop put tableName 0 items

/-- `sql.InitialDBSetup` (src/sql/sql.go). -/
structure InitialDBSetup where
  schemaSQL : String
  initialData : List String
deriving DecidableEq, Repr

/-- The transaction loop of `PrepDatabase`: execute each DML statement inside
the transaction until one fails. -/
def txLoop (txExec : String → Option String) : List String → List Act × Option String
  | [] => ([], none)
  | stmt :: rest =>
    match txExec stmt with
    | some e => ([Act.txExec stmt], some e)
    | none =>
      let r := txLoop txExec rest
      (Act.txExec stmt :: r.1, r.2)

/-- The initial-data phase of one `InitialDBSetup`: skip when the data list is
empty, else begin a transaction, execute each statement (rolling back at the
first failure), and commit. -/
def prepDatabaseData (beginErr : Option String) (txExec : String → Option String)
    (commitErr : Option String) (initialData : List String) : List Act × Option PrepError :=
  if initialData.isEmpty then ([], none)
  else
    match beginErr with
    | some e => ([Act.beginTx], some ⟨"failed to begin transaction: " ++ e, e⟩)
    | none =>
      let r := txLoop txExec initialData
      match r.2 with
      | some e =>
        (Act.beginTx :: r.1 ++ [Act.rollbackTx],
         some ⟨"failed to execute initial data SQL: " ++ e, e⟩)
      | none =>
        match commitErr with
        | some e =>
          (Act.beginTx :: r.1 ++ [Act.commitTx],
           some ⟨"failed to commit transaction: " ++ e, e⟩)
        | none => (Act.beginTx :: r.1 ++ [Act.commitTx], none)

/-- One `InitialDBSetup` of `PrepDatabase`: execute the schema DDL when
non-empty, then the initial-data phase. -/
def prepDatabaseSetup (exec : String → Option String) (beginErr : Option String)
    (txExec : String → Option String) (commitErr : Option String)
    (setup : InitialDBSetup) : List Act × Option PrepError :=
  if setup.schemaSQL = "" then
    prepDatabaseData beginErr txExec commitErr setup.initialData
  else
    match exec setup.schemaSQL with
    | some e =>
      ([Act.execSQL setup.schemaSQL], some ⟨"failed to execute schema SQL: " ++ e, e⟩)
    | none =>
      let d := prepDatabaseData beginErr txExec commitErr setup.initialData
      (Act.execSQL setup.schemaSQL :: d.1, d.2)

/-- `sql.PrepDatabase` (src/sql/sql.go): run each setup in order, returning
the first error.  The oracles give the outcomes of `db.Exec`, `db.Begin`,
`tx.Exec` and `tx.Commit`.  Note it takes an existing `*sql.DB`, performs
only SQL actions, and returns an error value: it is a fixture-preparation
helper, not a container lifecycle helper. -/
def PrepDatabase (exec : String → Option String) (beginErr : Option String)
    (txExec : String → Option String) (commitErr : Option String) :
    List InitialDBSetup → List Act × Option PrepError
  | [] => ([], none)
  | setup :: rest =>
    let s := prepDatabaseSetup exec beginErr txExec commitErr setup
    match s.2 with
    | some e => (s.1, some e)
    | none =>
      let r := PrepDatabase exec beginErr txExec commitErr rest
      (s.1 ++ r.1, r.2)

/-- A value stored in an `amqp.Table`: a boolean or something else. -/
inductive TValue (ρ : Type) where
  | bool (b : Bool)
  | other (x : ρ)
deriving DecidableEq, Repr

/-- An `amqp.Table` (a string-keyed map, modelled as an association list). -/
abbrev AmqpTable (ρ : Type) := List (String × TValue ρ)

/-- The flag-extraction idiom of `PrepQueue`/`PrepExchange`: a flag defaults
to false, and is overridden only when the (non-nil) table holds a boolean
under the flag's key. -/
def tableFlag {ρ : Type} (options : Option (AmqpTable ρ)) (key : String) : Bool :=
  match options with
  | none => false
  | some tbl =>
    match tbl.lookup key with
    | some (TValue.bool b) => b
    | _ => false

/-- A `ch.QueueDeclare` call: name, the four flags, and the args table. -/
structure QueueDeclareCall (ρ : Type) where
  name : String
  durable : Bool
  autoDelete : Bool
  exclusive : Bool
  noWait : Bool
  args : Option (AmqpTable ρ)
deriving DecidableEq, Repr

/-- An `amqp.Queue` as returned by `QueueDeclare`. -/
structure AmqpQueue where
  name : String
deriving DecidableEq, Repr

/-- `rabbitmq.PrepQueue` (rabbitmq package): open a channel, read the four
declare flags out of the options table (each defaulting to false), declare
the queue passing the table itself as the args. -/
def PrepQueue {ρ : Type} (chErr : Option String)
    (declare : QueueDeclareCall ρ → Except String AmqpQueue)
    (name : String) (options : Option (AmqpTable ρ)) :
    List (QueueDeclareCall ρ) × Except PrepError AmqpQueue :=
  match chErr with
  | some e => ([], Except.error ⟨"failed to open a channel: " ++ e, e⟩)
  | none =>
    let call : QueueDeclareCall ρ :=
      ⟨name, tableFlag options "durable", tableFlag options "autoDelete",
       tableFlag options "exclusive", tableFlag options "noWait", options⟩
    match declare call with
    | Except.error e =>
      ([call], Except.error ⟨"failed to declare queue '" ++ name ++ "': " ++ e, e⟩)
    | Except.ok q => ([call], Except.ok q)

/-- An `amqp.Publishing` restricted to the fields `PublishMessage` touches
(`ContentType`, `Body`); `rest` stands for all the remaining fields, which
are carried through untouched. -/
structure Publishing (ρ : Type) where
  contentType : String
  body : String
  rest : ρ
deriving DecidableEq, Repr

/-- A `ch.Publish` call. -/
structure PublishCall (ρ : Type) where
  exchange : String
  routingKey : String
  mandatory : Bool
  immediate : Bool
  msg : Publishing ρ
deriving DecidableEq, Repr

/-- `rabbitmq.PublishMessage` (rabbitmq package): open a channel, default an
empty `ContentType` to `text/plain`, set `Body` to the message, publish with
`mandatory = immediate = false`. -/
def PublishMessage {ρ : Type} (chErr : Option String)
    (publish : PublishCall ρ → Option String) (exchange routingKey : String)
    (message : String) (options : Publishing ρ) :
    List (PublishCall ρ) × Option PrepError :=
  match chErr with
  | some e => ([], some ⟨"failed to open a channel: " ++ e, e⟩)
  | none =>
    let withCT :=
      if options.contentType = "" then { options with contentType := "text/plain" }
      else options
    let msg := { withCT with body := message }
    let call : PublishCall ρ := ⟨exchange, routingKey, false, false, msg⟩
    match publish call with
    | some e =>
      ([call], some ⟨"failed to publish message to exchange '" ++ exchange ++ "': " ++ e, e⟩)
    | none => ([call], none)

/-- The S3 state visible to `PrepBucket`: which buckets exist.  `HeadBucket`
succeeds exactly on an existing bucket. -/
structure S3State where
  buckets : List String
deriving DecidableEq, Repr

/-- S3 API calls issued by the MinIO fixture helpers. -/
inductive S3Call where
  | headBucket (bucket : String)
  | createBucket (bucket : String)
  | putObject (bucket key body : String)
deriving DecidableEq, Repr

/-- Whether an S3 call is a `PutObject`. -/
def S3Call.isPutObject : S3Call → Bool
  | .putObject _ _ _ => true
  | _ => false

/-- Result of a MinIO fixture helper: resulting bucket state, returned error,
and the S3 calls issued, in order. -/
structure S3Run where
  state : S3State
  err : Option PrepError
  calls : List S3Call
deriving DecidableEq, Repr

/-- `minio.PrepBucket` (src/minio/minio.go): `HeadBucket`; only when that
fails (the bucket does not exist) issue `CreateBucket`.  `createErr` is the
oracle for `CreateBucket` failures. -/
def PrepBucket (createErr : String → Option String) (s : S3State)
    (bucketName : String) : S3Run :=
  if bucketName ∈ s.buckets then
    ⟨s, none, [S3Call.headBucket bucketName]⟩
  else
    match createErr bucketName with
    | none =>
      ⟨⟨bucketName :: s.buckets⟩, none,
       [S3Call.headBucket bucketName, S3Call.createBucket bucketName]⟩
    | some e =>
      ⟨s, some ⟨"failed to create bucket " ++ bucketName ++ ": " ++ e, e⟩,
       [S3Call.headBucket bucketName, S3Call.createBucket bucketName]⟩

/-- `minio.UploadObject`: one `PutObject` call. -/
def UploadObject (putErr : String → String → String → Option String)
    (bucketName key body : String) : List S3Call × Option PrepError :=
  ([S3Call.putObject bucketName key body],
   match putErr bucketName key body with
   | some e =>
     some ⟨"failed to upload object " ++ key ++ " to bucket " ++ bucketName ++ ": " ++ e, e⟩
   | none => none)

/-- The upload loop of `PrepS3Objects`: upload each object until one fails. -/
def uploadLoop (putErr : String → String → String → Option String)
    (bucketName : String) : List (String × String) → List S3Call × Option PrepError
  | [] => ([], none)
  | (key, data) :: rest =>
    let u := UploadObject putErr bucketName key data
    match u.2 with
    | some e => (u.1, some e)
    | none =>
      let r := uploadLoop putErr bucketName rest
      (u.1 ++ r.1, r.2)

/-- `minio.PrepS3Objects` (src/minio/minio.go): unconditionally `PrepBucket`
first, then upload the objects. -/
def PrepS3Objects (createErr : String → Option String)
    (putErr : String → String → String → Option String) (s : S3State)
    (bucketName : String) (objects : List (String × String)) : S3Run :=
  let b := PrepBucket createErr s bucketName
  match b.err with
  | some e => ⟨b.state, some e, b.calls⟩
  | none =>
    let u := uploadLoop putErr bucketName objects
    ⟨b.state, u.2, b.calls ++ u.1⟩

/-- Whether an action is one of the SQL actions a `*sql.DB` can perform:
statement execution or transaction control.  `PrepDatabase` performs only
these. -/
def sqlOnly : Act → Bool
  | .execSQL _ => true
  | .beginTx => true
  | .txExec _ => true
  | .rollbackTx => true
  | .commitTx => true
  | _ => false

/-- Go `strings.HasPrefix` / the comparison `len(v) >= len(p) && v[:len(p)] == p`
used by `GetEnvValue`. -/
def beginsWith (p v : String) : Prop :=
  p.length ≤ v.length ∧ strTake v p.length = p

instance (p v : String) : Decidable (beginsWith p v) := by
  unfold beginsWith
  infer_instance

/-- The last action of a trace, if any. -/
def lastAct? : List Act → Option Act
  | [] => none
  | [a] => some a
  | _ :: b :: rest => lastAct? (b :: rest)

/-- A docker environment where every external operation succeeds. -/
def goodDockerEnv : DockerEnv :=
  ⟨none, none, "localhost:6379", none⟩

/-- A docker environment where the container starts but the retry-connect
loop ultimately fails. -/
def retryFailEnv : DockerEnv :=
  ⟨none, none, "localhost:6379", some "connection refused"⟩

/-- A docker environment where the container starts but no host port is
assigned. -/
def noPortEnv : DockerEnv :=
  ⟨none, none, "", none⟩

/-- A docker environment where `dockertest.NewPool` itself fails: the
container is never started. -/
def poolFailEnv : DockerEnv :=
  ⟨some "no docker daemon", none, "", none⟩

theorem applyRunOptions_append (d : RunOptions) (xs ys : List RunOption) :
    applyRunOptions d (xs ++ ys) = applyRunOptions (applyRunOptions d xs) ys := by
  simp [applyRunOptions]

theorem applyRunOptions_tag_of_untouched (c : RunOptions) (post : List RunOption)
    (h : ∀ g ∈ post, ∀ x, (g x).tag = x.tag) :
    (applyRunOptions c post).tag = c.tag := by
  induction post generalizing c with
  | nil => rfl
  | cons g gs ih =>
    have hg := h g (List.mem_cons_self g gs)
    have hgs : ∀ g' ∈ gs, ∀ x, (g' x).tag = x.tag :=
      fun g' hg' => h g' (List.mem_cons_of_mem g hg')
    simp only [applyRunOptions, List.foldl_cons] at *
    rw [ih (g c) hgs, hg c]

/-- **C1.** Every `*WithOptions` lifecycle helper hands container creation the
default configuration with the option functions applied in list order: the
configuration in the `runContainer` action of its trace is
`applyRunOptions <defaults> runOpts`; an empty option list yields exactly the
defaults, and when an option sets a field and no later option touches it, the
final configuration holds that write, overriding the default and earlier
options (shown for the `tag` field). -/
theorem runOptions_merging_spec :
    (∀ (runOpts : List RunOption) (env : DockerEnv), env.poolErr = none →
      containerConfig? (NewRedisWithOptions runOpts env).trace =
        some (applyRunOptions redisDefaultRunOpts runOpts)) ∧
    (∀ (runOpts : List RunOption) (env : DockerEnv), env.poolErr = none →
      containerConfig? (RunMySQLWithOptions runOpts env).trace =
        some (applyRunOptions mysqlDefaultRunOpts runOpts)) ∧
    (∀ (runOpts : List RunOption) (env : DockerEnv), env.poolErr = none →
      containerConfig? (RunPostgresWithOptions runOpts env).trace =
        some (applyRunOptions postgresDefaultRunOpts runOpts)) ∧
    (∀ (runOpts : List RunOption) (env : DockerEnv), env.poolErr = none →
      containerConfig? (NewMemcachedWithOptions runOpts env).trace =
        some (applyRunOptions memcachedDefaultRunOpts runOpts)) ∧
    (∀ (runOpts : List RunOption) (env : DockerEnv), env.poolErr = none →
      containerConfig? (NewDynamoDBWithOptions runOpts env).trace =
        some (applyRunOptions dynamoDBDefaultRunOpts runOpts)) ∧
    (∀ (runOpts : List RunOption) (env : DockerEnv), env.poolErr = none →
      containerConfig? (Minio.RunWithOptions runOpts env).trace =
        some (applyRunOptions minioDefaultRunOpts runOpts)) ∧
    (∀ (runOpts : List RunOption) (env : DockerEnv), env.poolErr = none →
      containerConfig? (RabbitMQ.RunWithOptions runOpts env).trace =
        some (applyRunOptions rabbitMQDefaultRunOpts runOpts)) ∧
    (∀ d : RunOptions, applyRunOptions d [] = d) ∧
    (∀ (d : RunOptions) (pre post : List RunOption) (f : RunOption) (v : String),
      (∀ c, (f c).tag = v) → (∀ g ∈ post, ∀ c, (g c).tag = c.tag) →
      (applyRunOptions d (pre ++ f :: post)).tag = v) := by
  refine ⟨?_, ?_, ?_, ?_, ?_, ?_, ?_, fun d => rfl, ?_⟩
  case _ =>
    intro opts env h
    rcases env with ⟨pe, re, hp, ce⟩
    cases h
    cases re with
    | some e => simp [NewRedisWithOptions, containerConfig?]
    | none =>
      by_cases hhp : hp = "" <;> cases ce <;>
        simp [NewRedisWithOptions, hhp, containerConfig?]
  case _ =>
    intro opts env h
    rcases env with ⟨pe, re, hp, ce⟩
    cases h
    cases re with
    | some e => simp [RunMySQLWithOptions, RunDockerDB, containerConfig?]
    | none =>
      by_cases hhp : hp = "" <;> cases ce <;>
        simp [RunMySQLWithOptions, RunDockerDB, hhp, containerConfig?]
  case _ =>
    intro opts env h
    rcases env with ⟨pe, re, hp, ce⟩
    cases h
    cases re with
    | some e => simp [RunPostgresWithOptions, RunDockerDB, containerConfig?]
    | none =>
      by_cases hhp : hp = "" <;> cases ce <;>
        simp [RunPostgresWithOptions, RunDockerDB, hhp, containerConfig?]
  case _ =>
    intro opts env h
    rcases env with ⟨pe, re, hp, ce⟩
    cases h
    cases re with
    | some e => simp [NewMemcachedWithOptions, containerConfig?]
    | none =>
      by_cases hhp : hp = "" <;> cases ce <;>
        simp [NewMemcachedWithOptions, hhp, containerConfig?]
  case _ =>
    intro opts env h
    rcases env with ⟨pe, re, hp, ce⟩
    cases h
    cases re with
    | some e => simp [NewDynamoDBWithOptions, containerConfig?]
    | none =>
      by_cases hhp : hp = "" <;> cases ce <;>
        simp [NewDynamoDBWithOptions, hhp, containerConfig?]
  case _ =>
    intro opts env h
    rcases env with ⟨pe, re, hp, ce⟩
    cases h
    cases re with
    | some e => simp [Minio.RunWithOptions, containerConfig?]
    | none =>
      by_cases hhp : hp = "" <;> cases ce <;>
        simp [Minio.RunWithOptions, hhp, containerConfig?]
  case _ =>
    intro opts env h
    rcases env with ⟨pe, re, hp, ce⟩
    cases h
    cases re with
    | some e => simp [RabbitMQ.RunWithOptions, containerConfig?]
    | none =>
      by_cases hhp : hp = "" <;> cases ce <;>
        simp [RabbitMQ.RunWithOptions, hhp, containerConfig?]
  case _ =>
    intro d pre post f v hf hpost
    rw [applyRunOptions_append]
    show (applyRunOptions (applyRunOptions d pre) (f :: post)).tag = v
    have : applyRunOptions (applyRunOptions d pre) (f :: post) =
        applyRunOptions (f (applyRunOptions d pre)) post := rfl
    rw [this, applyRunOptions_tag_of_untouched _ post hpost, hf]

/-- Witness for C1: with a single option overriding the tag, the redis helper
hands creation the defaults with the tag replaced, and last-writer-wins holds
at a concrete pair of competing options. -/
theorem runOptions_merging_spec_witness :
    containerConfig? (NewRedisWithOptions [fun c => { c with tag := "7.0" }] goodDockerEnv).trace =
      some { repository := "redis", tag := "7.0", env := [], cmd := [] } ∧
    (applyRunOptions redisDefaultRunOpts
      ([fun c => { c with tag := "6.0" }] ++
        (fun c => { c with tag := "7.0" }) :: [fun c => { c with repository := "redis2" }])).tag
      = "7.0" := by
  constructor
  · have h := runOptions_merging_spec.1 [fun c => { c with tag := "7.0" }] goodDockerEnv rfl
    rw [h]
    rfl
  · exact runOptions_merging_spec.2.2.2.2.2.2.2.2 redisDefaultRunOpts
      [fun c => { c with tag := "6.0" }] [fun c => { c with repository := "redis2" }]
      (fun c => { c with tag := "7.0" }) "7.0" (fun c => rfl)
      (by intro g hg c; simp at hg; subst hg; rfl)

theorem txLoop_sqlOnly (te : String → Option String) (l : List String) :
    ∀ a ∈ (txLoop te l).1, sqlOnly a = true := by
  induction l with
  | nil => intro a ha; simp [txLoop] at ha
  | cons s rest ih =>
    intro a ha
    cases h : te s with
    | some e =>
      simp [txLoop, h] at ha
      subst ha; rfl
    | none =>
      simp [txLoop, h] at ha
      rcases ha with ha | ha
      · subst ha; rfl
      · exact ih a ha

theorem prepDatabaseData_sqlOnly (b : Option String) (te : String → Option String)
    (cm : Option String) (l : List String) :
    ∀ a ∈ (prepDatabaseData b te cm l).1, sqlOnly a = true := by
  intro a ha
  unfold prepDatabaseData at ha
  split at ha
  · simp at ha
  · cases b with
    | some e => simp at ha; subst ha; rfl
    | none =>
      simp only at ha
      split at ha
      · simp [List.mem_cons, List.mem_append] at ha
        rcases ha with ha | ha | ha
        · subst ha; rfl
        · exact txLoop_sqlOnly te l a ha
        · subst ha; rfl
      · cases cm with
        | some e =>
          simp [List.mem_cons, List.mem_append] at ha
          rcases ha with ha | ha | ha
          · subst ha; rfl
          · exact txLoop_sqlOnly te l a ha
          · subst ha; rfl
        | none =>
          simp [List.mem_cons, List.mem_append] at ha
          rcases ha with ha | ha | ha
          · subst ha; rfl
          · exact txLoop_sqlOnly te l a ha
          · subst ha; rfl

theorem prepDatabaseSetup_sqlOnly (ex : String → Option String) (b : Option String)
    (te : String → Option String) (cm : Option String) (setup : InitialDBSetup) :
    ∀ a ∈ (prepDatabaseSetup ex b te cm setup).1, sqlOnly a = true := by
  intro a ha
  unfold prepDatabaseSetup at ha
  split at ha
  · exact prepDatabaseData_sqlOnly b te cm setup.initialData a ha
  · split at ha
    · simp at ha; subst ha; rfl
    · simp [List.mem_cons] at ha
      rcases ha with ha | ha
      · subst ha; rfl
      · exact prepDatabaseData_sqlOnly b te cm setup.initialData a ha

theorem prepDatabase_sqlOnly (ex : String → Option String) (b : Option String)
    (te : String → Option String) (cm : Option String) (setups : List InitialDBSetup) :
    ∀ a ∈ (PrepDatabase ex b te cm setups).1, sqlOnly a = true := by
  induction setups with
  | nil => intro a ha; simp [PrepDatabase] at ha
  | cons setup rest ih =>
    intro a ha
    cases h : (prepDatabaseSetup ex b te cm setup).2 with
    | some e =>
      simp only [PrepDatabase, h] at ha
      exact prepDatabaseSetup_sqlOnly ex b te cm setup a ha
    | none =>
      simp only [PrepDatabase, h, List.mem_append] at ha
      rcases ha with ha | ha
      · exact prepDatabaseSetup_sqlOnly ex b te cm setup a ha
      · exact ih a ha

/-- **C2, counterexample.** `PrepDatabase` is an exported function of the
library, yet it is not a create-options / start-container / retry-connect /
client-plus-cleanup sequence: at a concrete input it performs exactly one SQL
action (no container is started, no pool is created, no retry runs) and
returns an error value to its caller instead of a client and a cleanup. -/
theorem exported_thin_sequence_counterexample :
    (PrepDatabase (fun _ => some "boom") none (fun _ => none) none
        [⟨"CREATE TABLE t (id INT)", []⟩]).1 = [Act.execSQL "CREATE TABLE t (id INT)"] ∧
    (PrepDatabase (fun _ => some "boom") none (fun _ => none) none
        [⟨"CREATE TABLE t (id INT)", []⟩]).2 =
      some ⟨"failed to execute schema SQL: boom", "boom"⟩ := by
  constructor <;> rfl

/-- **C2, amended.** Every exported *container lifecycle helper* is the thin
sequence create-options → start container → retry-connect → client plus
cleanup: on an environment where all external steps succeed, its trace is
exactly pool creation, container start with the merged options, port lookup,
a log line and the retry-connect loop, and it returns the connected client
together with its teardown.  The other exported functions are not of this
shape: `PrepDatabase` (a fixture-preparation helper over an existing
`*sql.DB`) performs only SQL actions and returns an error value. -/
theorem exported_lifecycle_thin_sequence :
    (∀ (opts : List RunOption) (env : DockerEnv), env.poolErr = none →
      env.runErr = none → env.hostPort ≠ "" → env.connectErr = none →
      NewRedisWithOptions opts env =
        ⟨[Act.newPool, Act.runContainer (applyRunOptions redisDefaultRunOpts opts),
          Act.getHostPort "6379/tcp",
          Act.log ("redis container is running on host port '" ++ env.hostPort ++ "'"),
          Act.retry],
         Outcome.ok ⟨env.hostPort, true⟩ redisCleanupKind⟩) ∧
    (∀ (opts : List RunOption) (env : DockerEnv), env.poolErr = none →
      env.runErr = none → env.hostPort ≠ "" → env.connectErr = none →
      NewMemcachedWithOptions opts env =
        ⟨[Act.newPool, Act.runContainer (applyRunOptions memcachedDefaultRunOpts opts),
          Act.getHostPort "11211/tcp",
          Act.log ("memcached container is running on host port '" ++ env.hostPort ++ "'"),
          Act.retry],
         Outcome.ok ⟨env.hostPort, true⟩ memcachedCleanupKind⟩) ∧
    (∀ (opts : List RunOption) (env : DockerEnv), env.poolErr = none →
      env.runErr = none → env.hostPort ≠ "" → env.connectErr = none →
      RunMySQLWithOptions opts env =
        ⟨[Act.newPool, Act.runContainer (applyRunOptions mysqlDefaultRunOpts opts),
          Act.getHostPort "3306/tcp",
          Act.log ("mysql container is running on host port '" ++ env.hostPort ++ "'"),
          Act.retry],
         Outcome.ok
           ⟨mysqlDSN
              (GetEnvValue (applyRunOptions mysqlDefaultRunOpts opts).env "MYSQL_ROOT_PASSWORD")
              (GetEnvValue (applyRunOptions mysqlDefaultRunOpts opts).env "MYSQL_DATABASE")
              env.hostPort, true⟩
           (dbCleanupKind "mysql")⟩) ∧
    (∀ (opts : List RunOption) (env : DockerEnv), env.poolErr = none →
      env.runErr = none → env.hostPort ≠ "" → env.connectErr = none →
      RunPostgresWithOptions opts env =
        ⟨[Act.newPool, Act.runContainer (applyRunOptions postgresDefaultRunOpts opts),
          Act.getHostPort "5432/tcp",
          Act.log ("postgres container is running on host port '" ++ env.hostPort ++ "'"),
          Act.retry],
         Outcome.ok
           ⟨postgresDSN
              (GetEnvValue (applyRunOptions postgresDefaultRunOpts opts).env "POSTGRES_PASSWORD")
              (GetEnvValue (applyRunOptions postgresDefaultRunOpts opts).env "POSTGRES_DB")
              env.hostPort, true⟩
           (dbCleanupKind "postgres")⟩) ∧
    (∀ (opts : List RunOption) (env : DockerEnv), env.poolErr = none →
      env.runErr = none → env.hostPort ≠ "" → env.connectErr = none →
      NewDynamoDBWithOptions opts env =
        ⟨[Act.newPool, Act.runContainer (applyRunOptions dynamoDBDefaultRunOpts opts),
          Act.getPort "8000/tcp",
          Act.log ("DynamoDB container is running on host port '" ++ env.hostPort ++ "'"),
          Act.retry],
         Outcome.ok ⟨"http://localhost:" ++ env.hostPort, true⟩ dynamoDBCleanupKind⟩) ∧
    (∀ (opts : List RunOption) (env : DockerEnv), env.poolErr = none →
      env.runErr = none → env.hostPort ≠ "" → env.connectErr = none →
      Minio.RunWithOptions opts env =
        ⟨[Act.newPool, Act.runContainer (applyRunOptions minioDefaultRunOpts opts),
          Act.getHostPort "9000/tcp",
          Act.log ("MinIO container is running on host port '" ++ env.hostPort ++ "'"),
          Act.log ("Connecting to MinIO endpoint: "
            ++ ("http://localhost:" ++ dropLeading "localhost:" env.hostPort)
            ++ " with credentials "
            ++ GetEnvValue (applyRunOptions minioDefaultRunOpts opts).env "MINIO_ROOT_USER"
            ++ ":"
            ++ GetEnvValue (applyRunOptions minioDefaultRunOpts opts).env "MINIO_ROOT_PASSWORD"),
          Act.retry],
         Outcome.ok
           ⟨"http://localhost:" ++ dropLeading "localhost:" env.hostPort,
            GetEnvValue (applyRunOptions minioDefaultRunOpts opts).env "MINIO_ROOT_USER",
            GetEnvValue (applyRunOptions minioDefaultRunOpts opts).env "MINIO_ROOT_PASSWORD",
            true⟩
           minioCleanupKind⟩) ∧
    (∀ (opts : List RunOption) (env : DockerEnv), env.poolErr = none →
      env.runErr = none → env.hostPort ≠ "" → env.connectErr = none →
      RabbitMQ.RunWithOptions opts env =
        ⟨[Act.newPool, Act.runContainer (applyRunOptions rabbitMQDefaultRunOpts opts),
          Act.getHostPort "5672/tcp",
          Act.log ("rabbitmq container is running on host port '" ++ env.hostPort ++ "'"),
          Act.retry],
         Outcome.ok ⟨"amqp://guest:guest@" ++ env.hostPort ++ "/", true⟩
           rabbitMQCleanupKind⟩) ∧
    (∀ (ex : String → Option String) (b : Option String) (te : String → Option String)
      (cm : Option String) (setups : List InitialDBSetup),
      ∀ a ∈ (PrepDatabase ex b te cm setups).1, sqlOnly a = true) := by
  refine ⟨?_, ?_, ?_, ?_, ?_, ?_, ?_, prepDatabase_sqlOnly⟩ <;>
    · intro opts env h1 h2 h3 h4
      rcases env with ⟨pe, re, hp, ce⟩
      cases h1; cases h2; cases h4
      simp only [ne_eq] at h3
      simp [NewRedisWithOptions, NewMemcachedWithOptions, RunMySQLWithOptions,
        RunPostgresWithOptions, RunDockerDB, NewDynamoDBWithOptions,
        Minio.RunWithOptions, RabbitMQ.RunWithOptions, h3, redisConnect,
        memcacheConnect, dbConnect, dynamoConnect, minioConnect, amqpDial]

/-- Witness for the amended C2: the redis helper at a concrete all-good
environment returns the verified client and its cleanup after exactly the
thin sequence, and at a concrete input `PrepDatabase` performs only SQL. -/
theorem exported_lifecycle_thin_sequence_witness :
    NewRedisWithOptions [] goodDockerEnv =
      ⟨[Act.newPool, Act.runContainer redisDefaultRunOpts, Act.getHostPort "6379/tcp",
        Act.log "redis container is running on host port 'localhost:6379'", Act.retry],
       Outcome.ok ⟨"localhost:6379", true⟩ redisCleanupKind⟩ ∧
    sqlOnly (Act.execSQL "CREATE TABLE t (id INT)") = true := by
  constructor
  · have h := exported_lifecycle_thin_sequence.1 [] goodDockerEnv rfl rfl
      (by decide) rfl
    rw [h]
    rfl
  · exact exported_lifecycle_thin_sequence.2.2.2.2.2.2.2
      (fun _ => some "boom") none (fun _ => none) none [⟨"CREATE TABLE t (id INT)", []⟩]
      (Act.execSQL "CREATE TABLE t (id INT)") (by decide)

/-- **C3, counterexample.** `PrepMemcached` is a fixture preparation helper
that does modify a field of its argument before the client call: an item with
`Expiration = 0` is passed to `client.Set` with `Expiration = 3600` (one
hour), so the pass-through is neither direct nor unconditional for it. -/
theorem fixture_pass_through_counterexample :
    (PrepMemcached (fun _ => none) [⟨"k", "v", 0, 0⟩]).1 = [⟨"k", "v", 0, 3600⟩] ∧
    [(⟨"k", "v", 0, 3600⟩ : MemcacheItem)] ≠ [(⟨"k", "v", 0, 0⟩ : MemcacheItem)] := by
  constructor
  · rfl
  · decide

/-- **C3, amended.** Fixture preparation helpers forward their arguments to
the third-party client operation, except for the documented adjustments:
`PrepRedis`, `PrepRedisSortedSet` and `PrepDynamoDBItems` forward every item
verbatim; `PrepMemcached` forwards each item after defaulting a zero
expiration to 3600 seconds; `PublishMessage` forwards the `Publishing` after
defaulting an empty `ContentType` to `text/plain` and storing the message as
its `Body` (all other fields untouched); `PrepQueue` derives the four declare
flags from the options table (each defaulting to false) and forwards the
table itself unchanged as the args. -/
theorem fixture_forwarding :
    (∀ (V : Type) (set : String → V → Int → Option String)
       (items : List (String × V)) (e : Int),
      ∀ c ∈ (PrepRedis set items e).1, (c.key, c.value) ∈ items ∧ c.expiration = e) ∧
    (∀ (S : Type) (zadd : String → String → S → Option String) (key : String)
       (members : List (String × S)),
      ∀ c ∈ (PrepRedisSortedSet zadd key members).1,
        c.key = key ∧ (c.member, c.score) ∈ members) ∧
    (∀ (V : Type) (put : String → V → Option String) (tn : String) (items : List V),
      ∀ c ∈ (PrepDynamoDBItems put tn items).1, c.tableName = tn ∧ c.item ∈ items) ∧
    (∀ (set : MemcacheItem → Option String) (items : List MemcacheItem),
      ∀ c ∈ (PrepMemcached set items).1, ∃ it ∈ items, c = memcacheDefaulted it) ∧
    (∀ (ρ : Type) (chErr : Option String) (publish : PublishCall ρ → Option String)
       (ex rk msg : String) (opts : Publishing ρ),
      ∀ c ∈ (PublishMessage chErr publish ex rk msg opts).1,
        c = ⟨ex, rk, false, false,
             ⟨if opts.contentType = "" then "text/plain" else opts.contentType,
              msg, opts.rest⟩⟩) ∧
    (∀ (ρ : Type) (chErr : Option String)
       (declare : QueueDeclareCall ρ → Except String AmqpQueue)
       (name : String) (options : Option (AmqpTable ρ)),
      ∀ c ∈ (PrepQueue chErr declare name options).1,
        c = ⟨name, tableFlag options "durable", tableFlag options "autoDelete",
             tableFlag options "exclusive", tableFlag options "noWait", options⟩) := by
  refine ⟨?_, ?_, ?_, ?_, ?_, ?_⟩
  · intro V set items e
    induction items with
    | nil => intro c hc; simp [PrepRedis] at hc
    | cons kv rest ih =>
      intro c hc
      obtain ⟨k, v⟩ := kv
      cases h : set k v e with
      | some err =>
        simp [PrepRedis, h] at hc
        subst hc
        exact ⟨List.mem_cons_self _ _, rfl⟩
      | none =>
        simp only [PrepRedis, h] at hc
        rcases List.mem_cons.mp hc with hc | hc
        · subst hc; exact ⟨List.mem_cons_self _ _, rfl⟩
        · obtain ⟨h1, h2⟩ := ih c hc
          exact ⟨List.mem_cons_of_mem _ h1, h2⟩
  · intro S zadd key members
    induction members with
    | nil => intro c hc; simp [PrepRedisSortedSet] at hc
    | cons ms rest ih =>
      intro c hc
      obtain ⟨m, sc⟩ := ms
      cases h : zadd key m sc with
      | some err =>
        simp [PrepRedisSortedSet, h] at hc
        subst hc
        exact ⟨rfl, List.mem_cons_self _ _⟩
      | none =>
        simp only [PrepRedisSortedSet, h] at hc
        rcases List.mem_cons.mp hc with hc | hc
        · subst hc; exact ⟨rfl, List.mem_cons_self _ _⟩
        · obtain ⟨h1, h2⟩ := ih c hc
          exact ⟨h1, List.mem_cons_of_mem _ h2⟩
  · intro V put tn items
    suffices h : ∀ (i : Nat) (c : PutItemCall V),
        c ∈ (prepDynamoDBItemsLoop put tn i items).1 → c.tableName = tn ∧ c.item ∈ items by
      intro c hc
      exact h 0 c hc
    induction items with
    | nil => intro i c hc; simp [prepDynamoDBItemsLoop] at hc
    | cons it rest ih =>
      intro i c hc
      cases h : put tn it with
      | some err =>
        simp [prepDynamoDBItemsLoop, h] at hc
        subst hc
        exact ⟨rfl, List.mem_cons_self _ _⟩
      | none =>
        simp only [prepDynamoDBItemsLoop, h] at hc
        rcases List.mem_cons.mp hc with hc | hc
        · subst hc; exact ⟨rfl, List.mem_cons_self _ _⟩
        · obtain ⟨h1, h2⟩ := ih (i + 1) c hc
          exact ⟨h1, List.mem_cons_of_mem _ h2⟩
  · intro set items
    induction items with
    | nil => intro c hc; simp [PrepMemcached] at hc
    | cons it rest ih =>
      intro c hc
      cases h : set (memcacheDefaulted it) with
      | some err =>
        simp [PrepMemcached, h] at hc
        exact ⟨it, List.mem_cons_self _ _, hc⟩
      | none =>
        simp only [PrepMemcached, h] at hc
        rcases List.mem_cons.mp hc with hc | hc
        · exact ⟨it, List.mem_cons_self _ _, hc⟩
        · obtain ⟨x, h1, h2⟩ := ih c hc
          exact ⟨x, List.mem_cons_of_mem _ h1, h2⟩
  · intro ρ chErr publish ex rk msg opts c hc
    cases chErr with
    | some e => simp [PublishMessage] at hc
    | none =>
      by_cases hct : opts.contentType = "" <;>
      · simp only [PublishMessage, hct, if_true, if_false] at hc
        split at hc <;>
        · simp at hc
          subst hc
          simp [hct]
  · intro ρ chErr declare name options c hc
    cases chErr with
    | some e => simp [PrepQueue] at hc
    | none =>
      simp only [PrepQueue] at hc
      split at hc <;>
      · simp at hc
        subst hc
        rfl

/-- Witness for the amended C3: a concrete `Set` call issued by `PrepRedis`
carries the key/value pair and expiration verbatim, and a concrete
`PrepMemcached` call is the defaulted form of an input item. -/
theorem fixture_forwarding_witness :
    (((⟨"k", "v", 7⟩ : RedisSetCall String).key,
      (⟨"k", "v", 7⟩ : RedisSetCall String).value) ∈ [("k", "v")] ∧
      (⟨"k", "v", 7⟩ : RedisSetCall String).expiration = 7) ∧
    (∃ it ∈ [(⟨"k", "v", 0, 0⟩ : MemcacheItem)],
      (⟨"k", "v", 0, 3600⟩ : MemcacheItem) = memcacheDefaulted it) := by
  constructor
  · exact fixture_forwarding.1 String (fun _ _ _ => none) [("k", "v")] 7
      ⟨"k", "v", 7⟩ (by decide)
  · exact fixture_forwarding.2.2.2.1 (fun _ => none) [⟨"k", "v", 0, 0⟩]
      ⟨"k", "v", 0, 3600⟩ (by decide)

theorem memcacheDefaulted_key (it : MemcacheItem) :
    (memcacheDefaulted it).key = it.key := by
  unfold memcacheDefaulted
  split <;> rfl

theorem prepRedis_none_iff {V : Type} (set : String → V → Int → Option String)
    (items : List (String × V)) (e : Int) :
    (PrepRedis set items e).2 = none ↔ ∀ kv ∈ items, set kv.1 kv.2 e = none := by
  induction items with
  | nil => simp [PrepRedis]
  | cons kv rest ih =>
    obtain ⟨k, v⟩ := kv
    cases h : set k v e with
    | some err => simp [PrepRedis, h]
    | none => simp [PrepRedis, h, ih]

theorem prepRedis_first_failure {V : Type} (set : String → V → Int → Option String)
    (pre : List (String × V)) (k : String) (v : V) (post : List (String × V))
    (e : Int) (err : String)
    (hpre : ∀ kv ∈ pre, set kv.1 kv.2 e = none) (hfail : set k v e = some err) :
    PrepRedis set (pre ++ (k, v) :: post) e =
      ((pre.map fun kv => (⟨kv.1, kv.2, e⟩ : RedisSetCall V)) ++ [⟨k, v, e⟩],
       some ⟨"failed to set item with key '" ++ k ++ "': " ++ err, err⟩) := by
  induction pre with
  | nil => simp [PrepRedis, hfail]
  | cons kv0 rest ih =>
    obtain ⟨k0, v0⟩ := kv0
    have h0 : set k0 v0 e = none := hpre (k0, v0) (List.mem_cons_self _ _)
    have hrest : ∀ kv ∈ rest, set kv.1 kv.2 e = none :=
      fun kv hkv => hpre kv (List.mem_cons_of_mem _ hkv)
    simp only [List.cons_append, PrepRedis, List.append_eq, h0, ih hrest, List.map_cons]

theorem prepZAdd_none_iff {S : Type} (zadd : String → String → S → Option String)
    (key : String) (members : List (String × S)) :
    (PrepRedisSortedSet zadd key members).2 = none ↔
      ∀ ms ∈ members, zadd key ms.1 ms.2 = none := by
  induction members with
  | nil => simp [PrepRedisSortedSet]
  | cons ms rest ih =>
    obtain ⟨m, sc⟩ := ms
    cases h : zadd key m sc with
    | some err => simp [PrepRedisSortedSet, h]
    | none => simp [PrepRedisSortedSet, h, ih]

theorem prepZAdd_first_failure {S : Type} (zadd : String → String → S → Option String)
    (key : String) (pre : List (String × S)) (m : String) (sc : S)
    (post : List (String × S)) (err : String)
    (hpre : ∀ ms ∈ pre, zadd key ms.1 ms.2 = none) (hfail : zadd key m sc = some err) :
    PrepRedisSortedSet zadd key (pre ++ (m, sc) :: post) =
      ((pre.map fun ms => (⟨key, ms.1, ms.2⟩ : ZAddCall S)) ++ [⟨key, m, sc⟩],
       some ⟨"failed to add member '" ++ m ++ "' to sorted set '" ++ key ++ "': " ++ err,
             err⟩) := by
  induction pre with
  | nil => simp [PrepRedisSortedSet, hfail]
  | cons ms0 rest ih =>
    obtain ⟨m0, sc0⟩ := ms0
    have h0 : zadd key m0 sc0 = none := hpre (m0, sc0) (List.mem_cons_self _ _)
    have hrest : ∀ ms ∈ rest, zadd key ms.1 ms.2 = none :=
      fun ms hms => hpre ms (List.mem_cons_of_mem _ hms)
    simp only [List.cons_append, PrepRedisSortedSet, List.append_eq, h0, ih hrest, List.map_cons]

theorem prepMemcached_none_iff (set : MemcacheItem → Option String)
    (items : List MemcacheItem) :
    (PrepMemcached set items).2 = none ↔
      ∀ it ∈ items, set (memcacheDefaulted it) = none := by
  induction items with
  | nil => simp [PrepMemcached]
  | cons it rest ih =>
    cases h : set (memcacheDefaulted it) with
    | some err => simp [PrepMemcached, h]
    | none => simp [PrepMemcached, h, ih]

theorem prepMemcached_first_failure (set : MemcacheItem → Option String)
    (pre : List MemcacheItem) (it : MemcacheItem) (post : List MemcacheItem)
    (err : String)
    (hpre : ∀ x ∈ pre, set (memcacheDefaulted x) = none)
    (hfail : set (memcacheDefaulted it) = some err) :
    PrepMemcached set (pre ++ it :: post) =
      (pre.map memcacheDefaulted ++ [memcacheDefaulted it],
       some ⟨"failed to set item with key '" ++ it.key ++ "': " ++ err, err⟩) := by
  induction pre with
  | nil => simp [PrepMemcached, hfail, memcacheDefaulted_key]
  | cons x0 rest ih =>
    have h0 : set (memcacheDefaulted x0) = none := hpre x0 (List.mem_cons_self _ _)
    have hrest : ∀ x ∈ rest, set (memcacheDefaulted x) = none :=
      fun x hx => hpre x (List.mem_cons_of_mem _ hx)
    simp only [List.cons_append, PrepMemcached, List.append_eq, h0, ih hrest, List.map_cons]

theorem prepDynamoLoop_none_iff {V : Type} (put : String → V → Option String)
    (tn : String) (items : List V) :
    ∀ i : Nat, (prepDynamoDBItemsLoop put tn i items).2 = none ↔
      ∀ it ∈ items, put tn it = none := by
  induction items with
  | nil => intro i; simp [prepDynamoDBItemsLoop]
  | cons it rest ih =>
    intro i
    cases h : put tn it with
    | some err => simp [prepDynamoDBItemsLoop, h]
    | none => simp [prepDynamoDBItemsLoop, h, ih (i + 1)]

theorem prepDynamoLoop_first_failure {V : Type} (put : String → V → Option String)
    (tn : String) (pre : List V) (it : V) (post : List V) (err : String)
    (hpre : ∀ x ∈ pre, put tn x = none) (hfail : put tn it = some err) :
    ∀ i : Nat, prepDynamoDBItemsLoop put tn i (pre ++ it :: post) =
      ((pre.map fun x => (⟨tn, x⟩ : PutItemCall V)) ++ [⟨tn, it⟩],
       some ⟨"failed to insert item " ++ toString (i + pre.length) ++ " into table "
               ++ tn ++ ": " ++ err, err⟩) := by
  induction pre with
  | nil => intro i; simp [prepDynamoDBItemsLoop, hfail]
  | cons x0 rest ih =>
    intro i
    have h0 : put tn x0 = none := hpre x0 (List.mem_cons_self _ _)
    have hrest : ∀ x ∈ rest, put tn x = none :=
      fun x hx => hpre x (List.mem_cons_of_mem _ hx)
    have hlen : (i + 1) + rest.length = i + (x0 :: rest).length := by
      simp [List.length_cons]
      omega
    simp only [List.cons_append, prepDynamoDBItemsLoop, List.append_eq, h0, ih hrest (i + 1),
      List.map_cons, hlen]

/-- **C4.** Each fixture preparation helper (`PrepRedis`,
`PrepRedisSortedSet`, `PrepDynamoDBItems`, `PrepMemcached`) returns `nil`
exactly when every individual store call succeeds, and at the first failing
item it stops: the store calls issued are precisely those for the items up to
and including the failing one, and the returned error wraps the underlying
error and names the failing item (its key, member, or index). -/
theorem fixture_first_failure_stop :
    (∀ (V : Type) (set : String → V → Int → Option String)
       (items : List (String × V)) (e : Int),
      (PrepRedis set items e).2 = none ↔ ∀ kv ∈ items, set kv.1 kv.2 e = none) ∧
    (∀ (V : Type) (set : String → V → Int → Option String) (pre : List (String × V))
       (k : String) (v : V) (post : List (String × V)) (e : Int) (err : String),
      (∀ kv ∈ pre, set kv.1 kv.2 e = none) → set k v e = some err →
      PrepRedis set (pre ++ (k, v) :: post) e =
        ((pre.map fun kv => (⟨kv.1, kv.2, e⟩ : RedisSetCall V)) ++ [⟨k, v, e⟩],
         some ⟨"failed to set item with key '" ++ k ++ "': " ++ err, err⟩)) ∧
    (∀ (S : Type) (zadd : String → String → S → Option String) (key : String)
       (members : List (String × S)),
      (PrepRedisSortedSet zadd key members).2 = none ↔
        ∀ ms ∈ members, zadd key ms.1 ms.2 = none) ∧
    (∀ (S : Type) (zadd : String → String → S → Option String) (key : String)
       (pre : List (String × S)) (m : String) (sc : S) (post : List (String × S))
       (err : String),
      (∀ ms ∈ pre, zadd key ms.1 ms.2 = none) → zadd key m sc = some err →
      PrepRedisSortedSet zadd key (pre ++ (m, sc) :: post) =
        ((pre.map fun ms => (⟨key, ms.1, ms.2⟩ : ZAddCall S)) ++ [⟨key, m, sc⟩],
         some ⟨"failed to add member '" ++ m ++ "' to sorted set '" ++ key ++ "': " ++ err,
               err⟩)) ∧
    (∀ (V : Type) (put : String → V → Option String) (tn : String) (items : List V),
      (PrepDynamoDBItems put tn items).2 = none ↔ ∀ it ∈ items, put tn it = none) ∧
    (∀ (V : Type) (put : String → V → Option String) (tn : String) (pre : List V)
       (it : V) (post : List V) (err : String),
      (∀ x ∈ pre, put tn x = none) → put tn it = some err →
      PrepDynamoDBItems put tn (pre ++ it :: post) =
        ((pre.map fun x => (⟨tn, x⟩ : PutItemCall V)) ++ [⟨tn, it⟩],
         some ⟨"failed to insert item " ++ toString pre.length ++ " into table "
                 ++ tn ++ ": " ++ err, err⟩)) ∧
    (∀ (set : MemcacheItem → Option String) (items : List MemcacheItem),
      (PrepMemcached set items).2 = none ↔
        ∀ it ∈ items, set (memcacheDefaulted it) = none) ∧
    (∀ (set : MemcacheItem → Option String) (pre : List MemcacheItem)
       (it : MemcacheItem) (post : List MemcacheItem) (err : String),
      (∀ x ∈ pre, set (memcacheDefaulted x) = none) →
      set (memcacheDefaulted it) = some err →
      PrepMemcached set (pre ++ it :: post) =
        (pre.map memcacheDefaulted ++ [memcacheDefaulted it],
         some ⟨"failed to set item with key '" ++ it.key ++ "': " ++ err, err⟩)) := by
  refine ⟨fun V => prepRedis_none_iff, fun V => prepRedis_first_failure,
    fun S => prepZAdd_none_iff, fun S => prepZAdd_first_failure, ?_, ?_,
    prepMemcached_none_iff, prepMemcached_first_failure⟩
  · intro V put tn items
    exact prepDynamoLoop_none_iff put tn items 0
  · intro V put tn pre it post err hpre hfail
    have h := prepDynamoLoop_first_failure put tn pre it post err hpre hfail 0
    simpa [PrepDynamoDBItems] using h

/-- Witness for C4: at a concrete item list with a failing middle item,
`PrepRedis` issues exactly the calls up to and including the failure and
returns the wrapping error naming the key, and the nil-iff-all-succeed
equivalence holds at a concrete all-success list. -/
theorem fixture_first_failure_stop_witness :
    PrepRedis (fun k _ _ => if k = "bad" then some "boom" else none)
        ([("a", "1")] ++ ("bad", "2") :: [("c", "3")]) 5 =
      ([⟨"a", "1", 5⟩, ⟨"bad", "2", 5⟩],
       some ⟨"failed to set item with key 'bad': boom", "boom"⟩) ∧
    ((PrepRedis (fun (_ : String) (_ : String) (_ : Int) => none) [("a", "1")] 5).2 = none ↔
      ∀ kv ∈ [("a", "1")],
        (fun (_ : String) (_ : String) (_ : Int) => (none : Option String)) kv.1 kv.2 5 = none) := by
  constructor
  · exact fixture_first_failure_stop.2.1 String
      (fun k _ _ => if k = "bad" then some "boom" else none)
      [("a", "1")] "bad" "2" [("c", "3")] 5 "boom" (by decide) (by decide)
  · exact fixture_first_failure_stop.1 String
      (fun _ _ _ => none) [("a", "1")] 5

/-- **C5.** In every lifecycle helper the connection is established inside the
external pool's `Retry` loop, and when that loop ultimately fails the helper
calls `t.Fatalf` instead of returning an error: after a successful start and
port assignment, a failing retry-connect leaves the helper with a `fatal`
outcome whose message wraps the retry error, the `retry` action in its trace,
and `Fatalf` as its very last action; and on any environment a lifecycle
helper's outcome is either a test abort or a client plus cleanup — there is
no error return. -/
theorem retry_failure_fatalf :
    (∀ (opts : List RunOption) (env : DockerEnv) (e : String), env.poolErr = none →
      env.runErr = none → env.hostPort ≠ "" → env.connectErr = some e →
      (NewRedisWithOptions opts env).outcome =
          Outcome.fatal ("could not connect to redis: " ++ e) ∧
        Act.retry ∈ (NewRedisWithOptions opts env).trace ∧
        lastAct? (NewRedisWithOptions opts env).trace =
          some (Act.fatalf ("could not connect to redis: " ++ e))) ∧
    (∀ (opts : List RunOption) (env : DockerEnv) (e : String), env.poolErr = none →
      env.runErr = none → env.hostPort ≠ "" → env.connectErr = some e →
      (NewMemcachedWithOptions opts env).outcome =
          Outcome.fatal ("could not connect to memcached: " ++ e) ∧
        Act.retry ∈ (NewMemcachedWithOptions opts env).trace ∧
        lastAct? (NewMemcachedWithOptions opts env).trace =
          some (Act.fatalf ("could not connect to memcached: " ++ e))) ∧
    (∀ (opts : List RunOption) (env : DockerEnv) (e : String), env.poolErr = none →
      env.runErr = none → env.hostPort ≠ "" → env.connectErr = some e →
      (RunMySQLWithOptions opts env).outcome =
          Outcome.fatal ("failed to connect to mysql: " ++ e) ∧
        Act.retry ∈ (RunMySQLWithOptions opts env).trace ∧
        lastAct? (RunMySQLWithOptions opts env).trace =
          some (Act.fatalf ("failed to connect to mysql: " ++ e))) ∧
    (∀ (opts : List RunOption) (env : DockerEnv) (e : String), env.poolErr = none →
      env.runErr = none → env.hostPort ≠ "" → env.connectErr = some e →
      (RunPostgresWithOptions opts env).outcome =
          Outcome.fatal ("failed to connect to postgres: " ++ e) ∧
        Act.retry ∈ (RunPostgresWithOptions opts env).trace ∧
        lastAct? (RunPostgresWithOptions opts env).trace =
          some (Act.fatalf ("failed to connect to postgres: " ++ e))) ∧
    (∀ (opts : List RunOption) (env : DockerEnv) (e : String), env.poolErr = none →
      env.runErr = none → env.hostPort ≠ "" → env.connectErr = some e →
      (NewDynamoDBWithOptions opts env).outcome =
          Outcome.fatal ("failed to connect to dynamodb: " ++ e) ∧
        Act.retry ∈ (NewDynamoDBWithOptions opts env).trace ∧
        lastAct? (NewDynamoDBWithOptions opts env).trace =
          some (Act.fatalf ("failed to connect to dynamodb: " ++ e))) ∧
    (∀ (opts : List RunOption) (env : DockerEnv) (e : String), env.poolErr = none →
      env.runErr = none → env.hostPort ≠ "" → env.connectErr = some e →
      (Minio.RunWithOptions opts env).outcome =
          Outcome.fatal ("failed to connect to MinIO: " ++ e) ∧
        Act.retry ∈ (Minio.RunWithOptions opts env).trace ∧
        lastAct? (Minio.RunWithOptions opts env).trace =
          some (Act.fatalf ("failed to connect to MinIO: " ++ e))) ∧
    (∀ (opts : List RunOption) (env : DockerEnv) (e : String), env.poolErr = none →
      env.runErr = none → env.hostPort ≠ "" → env.connectErr = some e →
      (RabbitMQ.RunWithOptions opts env).outcome =
          Outcome.fatal ("could not connect to rabbitmq: " ++ e) ∧
        Act.retry ∈ (RabbitMQ.RunWithOptions opts env).trace ∧
        lastAct? (RabbitMQ.RunWithOptions opts env).trace =
          some (Act.fatalf ("could not connect to rabbitmq: " ++ e))) ∧
    (∀ (opts : List RunOption) (env : DockerEnv),
      ((∃ m, (NewRedisWithOptions opts env).outcome = Outcome.fatal m) ∨
        ∃ c k, (NewRedisWithOptions opts env).outcome = Outcome.ok c k) ∧
      ((∃ m, (NewMemcachedWithOptions opts env).outcome = Outcome.fatal m) ∨
        ∃ c k, (NewMemcachedWithOptions opts env).outcome = Outcome.ok c k) ∧
      ((∃ m, (RunMySQLWithOptions opts env).outcome = Outcome.fatal m) ∨
        ∃ c k, (RunMySQLWithOptions opts env).outcome = Outcome.ok c k) ∧
      ((∃ m, (RunPostgresWithOptions opts env).outcome = Outcome.fatal m) ∨
        ∃ c k, (RunPostgresWithOptions opts env).outcome = Outcome.ok c k) ∧
      ((∃ m, (NewDynamoDBWithOptions opts env).outcome = Outcome.fatal m) ∨
        ∃ c k, (NewDynamoDBWithOptions opts env).outcome = Outcome.ok c k) ∧
      ((∃ m, (Minio.RunWithOptions opts env).outcome = Outcome.fatal m) ∨
        ∃ c k, (Minio.RunWithOptions opts env).outcome = Outcome.ok c k) ∧
      ((∃ m, (RabbitMQ.RunWithOptions opts env).outcome = Outcome.fatal m) ∨
        ∃ c k, (RabbitMQ.RunWithOptions opts env).outcome = Outcome.ok c k)) := by
  have hout : ∀ (α : Type) (o : Outcome α),
      (∃ m, o = Outcome.fatal m) ∨ ∃ c k, o = Outcome.ok c k := by
    intro α o
    cases o with
    | fatal m => exact Or.inl ⟨m, rfl⟩
    | ok c k => exact Or.inr ⟨c, k, rfl⟩
  refine ⟨?_, ?_, ?_, ?_, ?_, ?_, ?_,
    fun opts env => ⟨hout _ _, hout _ _, hout _ _, hout _ _, hout _ _, hout _ _, hout _ _⟩⟩ <;>
  · intro opts env e h1 h2 h3 h4
    rcases env with ⟨pe, re, hp, ce⟩
    cases h1; cases h2; cases h4
    simp only [ne_eq] at h3
    refine ⟨?_, ?_, ?_⟩ <;>
      simp [NewRedisWithOptions, NewMemcachedWithOptions, RunMySQLWithOptions,
        RunPostgresWithOptions, RunDockerDB, NewDynamoDBWithOptions,
        Minio.RunWithOptions, RabbitMQ.RunWithOptions, h3, lastAct?]

/-- Witness for C5: on the concrete environment whose retry loop fails with
`connection refused`, the redis helper aborts the test with the wrapping
`Fatalf` message as its last action. -/
theorem retry_failure_fatalf_witness :
    (NewRedisWithOptions [] retryFailEnv).outcome =
        Outcome.fatal ("could not connect to redis: " ++ "connection refused") ∧
      Act.retry ∈ (NewRedisWithOptions [] retryFailEnv).trace ∧
      lastAct? (NewRedisWithOptions [] retryFailEnv).trace =
        some (Act.fatalf ("could not connect to redis: " ++ "connection refused")) :=
  retry_failure_fatalf.1 [] retryFailEnv "connection refused" rfl rfl (by decide) rfl

/-- **C6.** A lifecycle helper that returns normally hands back a client that
has already answered its readiness probe (`Ping` for Redis, MySQL and
PostgreSQL, a `Get` for Memcached, `ListTables` for DynamoDB, `ListBuckets`
for MinIO, a successful AMQP dial for RabbitMQ) together with its teardown
callback: whenever the outcome is `ok c k`, the client is verified and `k` is
the helper's teardown (so a teardown is always returned — never a nil one,
and never an unverified client). -/
theorem returned_client_verified :
    (∀ (opts : List RunOption) (env : DockerEnv) (c : RedisClient) (k : CleanupKind),
      (NewRedisWithOptions opts env).outcome = Outcome.ok c k →
      c.verified = true ∧ k = redisCleanupKind) ∧
    (∀ (opts : List RunOption) (env : DockerEnv) (c : MemcacheClient) (k : CleanupKind),
      (NewMemcachedWithOptions opts env).outcome = Outcome.ok c k →
      c.verified = true ∧ k = memcachedCleanupKind) ∧
    (∀ (opts : List RunOption) (env : DockerEnv) (c : DBClient) (k : CleanupKind),
      (RunMySQLWithOptions opts env).outcome = Outcome.ok c k →
      c.verified = true ∧ k = dbCleanupKind "mysql") ∧
    (∀ (opts : List RunOption) (env : DockerEnv) (c : DBClient) (k : CleanupKind),
      (RunPostgresWithOptions opts env).outcome = Outcome.ok c k →
      c.verified = true ∧ k = dbCleanupKind "postgres") ∧
    (∀ (opts : List RunOption) (env : DockerEnv) (c : DynamoClient) (k : CleanupKind),
      (NewDynamoDBWithOptions opts env).outcome = Outcome.ok c k →
      c.verified = true ∧ k = dynamoDBCleanupKind) ∧
    (∀ (opts : List RunOption) (env : DockerEnv) (c : MinioClient) (k : CleanupKind),
      (Minio.RunWithOptions opts env).outcome = Outcome.ok c k →
      c.verified = true ∧ k = minioCleanupKind) ∧
    (∀ (opts : List RunOption) (env : DockerEnv) (c : AmqpConnection) (k : CleanupKind),
      (RabbitMQ.RunWithOptions opts env).outcome = Outcome.ok c k →
      c.verified = true ∧ k = rabbitMQCleanupKind) := by
  refine ⟨?_, ?_, ?_, ?_, ?_, ?_, ?_⟩ <;>
  · intro opts env c k h
    rcases env with ⟨pe, re, hp, ce⟩
    cases pe with
    | some e =>
      simp [NewRedisWithOptions, NewMemcachedWithOptions, RunMySQLWithOptions,
        RunPostgresWithOptions, RunDockerDB, NewDynamoDBWithOptions,
        Minio.RunWithOptions, RabbitMQ.RunWithOptions] at h
    | none =>
      cases re with
      | some e =>
        simp [NewRedisWithOptions, NewMemcachedWithOptions, RunMySQLWithOptions,
          RunPostgresWithOptions, RunDockerDB, NewDynamoDBWithOptions,
          Minio.RunWithOptions, RabbitMQ.RunWithOptions] at h
      | none =>
        by_cases hhp : hp = ""
        · simp [NewRedisWithOptions, NewMemcachedWithOptions, RunMySQLWithOptions,
            RunPostgresWithOptions, RunDockerDB, NewDynamoDBWithOptions,
            Minio.RunWithOptions, RabbitMQ.RunWithOptions, hhp] at h
        · cases ce with
          | some e =>
            simp [NewRedisWithOptions, NewMemcachedWithOptions, RunMySQLWithOptions,
              RunPostgresWithOptions, RunDockerDB, NewDynamoDBWithOptions,
              Minio.RunWithOptions, RabbitMQ.RunWithOptions, hhp] at h
          | none =>
            simp [NewRedisWithOptions, NewMemcachedWithOptions, RunMySQLWithOptions,
              RunPostgresWithOptions, RunDockerDB, NewDynamoDBWithOptions,
              Minio.RunWithOptions, RabbitMQ.RunWithOptions, hhp, redisConnect,
              memcacheConnect, dbConnect, dynamoConnect, minioConnect, amqpDial] at h
            obtain ⟨rfl, rfl⟩ := h
            exact ⟨rfl, rfl⟩

/-- Witness for C6: on the all-good environment the redis helper's outcome is
`ok` with a concrete client, and the theorem yields that this client is
verified and the teardown is the redis close-and-purge teardown. -/
theorem returned_client_verified_witness :
    (⟨"localhost:6379", true⟩ : RedisClient).verified = true ∧
      redisCleanupKind = redisCleanupKind :=
  returned_client_verified.1 [] goodDockerEnv ⟨"localhost:6379", true⟩
    redisCleanupKind (by decide)

/-- **C7.** A teardown callback returned by a lifecycle helper never fails the
test: running it produces no `Fatalf` for any outcome of `Close`/`Purge`; it
always attempts the container purge — also when closing the client failed
first, in which case the close error is merely logged and the purge still
follows; and a purge error is likewise only logged. -/
theorem cleanup_never_fails_test :
    (∀ (kind : CleanupKind) (closeErr purgeErr : Option String) (m : String),
      Act.fatalf m ∉ runCleanup kind closeErr purgeErr) ∧
    (∀ (kind : CleanupKind) (closeErr purgeErr : Option String),
      Act.purge ∈ runCleanup kind closeErr purgeErr) ∧
    (∀ (closeMsg purgeMsg e : String) (purgeErr : Option String),
      runCleanup (CleanupKind.closeAndPurge closeMsg purgeMsg) (some e) purgeErr =
        Act.closeClient :: Act.log (closeMsg ++ ": " ++ e) :: Act.purge ::
          (purgeErr.map fun e2 => Act.log (purgeMsg ++ ": " ++ e2)).toList) ∧
    (∀ (closeMsg purgeMsg e2 : String) (closeErr : Option String),
      Act.log (purgeMsg ++ ": " ++ e2) ∈
        runCleanup (CleanupKind.closeAndPurge closeMsg purgeMsg) closeErr (some e2) ∧
      Act.log (purgeMsg ++ ": " ++ e2) ∈
        runCleanup (CleanupKind.purgeOnly purgeMsg) none (some e2)) := by
  refine ⟨?_, ?_, ?_, ?_⟩
  · intro kind closeErr purgeErr m
    cases kind <;> cases closeErr <;> cases purgeErr <;> simp [runCleanup]
  · intro kind closeErr purgeErr
    cases kind <;> cases closeErr <;> cases purgeErr <;> simp [runCleanup]
  · intro closeMsg purgeMsg e purgeErr
    cases purgeErr <;> simp [runCleanup]
  · intro closeMsg purgeMsg e2 closeErr
    cases closeErr <;> simp [runCleanup]

/-- Witness for C7: running the redis teardown when both the client close and
the container purge fail produces no test failure, still purges, and logs
both errors. -/
theorem cleanup_never_fails_test_witness :
    Act.fatalf "boom" ∉ runCleanup redisCleanupKind (some "close failed") (some "purge failed") ∧
    Act.purge ∈ runCleanup redisCleanupKind (some "close failed") (some "purge failed") :=
  ⟨cleanup_never_fails_test.1 redisCleanupKind (some "close failed") (some "purge failed") "boom",
   cleanup_never_fails_test.2.1 redisCleanupKind (some "close failed") (some "purge failed")⟩

/-- **C9.** When a lifecycle helper fails after its container started (pool
creation and container start both succeeded, outcome is a test abort —
whether because no host port was assigned or because retry-connect failed),
it purges the container before the final `Fatalf`; when the container never
started (pool creation or container start failed), no purge is issued. -/
theorem purge_on_failure_after_start :
    ((∀ (opts : List RunOption) (env : DockerEnv) (m : String), env.poolErr = none →
        env.runErr = none → (NewRedisWithOptions opts env).outcome = Outcome.fatal m →
        Act.purge ∈ (NewRedisWithOptions opts env).trace ∧
          lastAct? (NewRedisWithOptions opts env).trace = some (Act.fatalf m)) ∧
      (∀ (opts : List RunOption) (env : DockerEnv) (m : String), env.poolErr = none →
        env.runErr = none → (NewMemcachedWithOptions opts env).outcome = Outcome.fatal m →
        Act.purge ∈ (NewMemcachedWithOptions opts env).trace ∧
          lastAct? (NewMemcachedWithOptions opts env).trace = some (Act.fatalf m)) ∧
      (∀ (opts : List RunOption) (env : DockerEnv) (m : String), env.poolErr = none →
        env.runErr = none → (RunMySQLWithOptions opts env).outcome = Outcome.fatal m →
        Act.purge ∈ (RunMySQLWithOptions opts env).trace ∧
          lastAct? (RunMySQLWithOptions opts env).trace = some (Act.fatalf m)) ∧
      (∀ (opts : List RunOption) (env : DockerEnv) (m : String), env.poolErr = none →
        env.runErr = none → (RunPostgresWithOptions opts env).outcome = Outcome.fatal m →
        Act.purge ∈ (RunPostgresWithOptions opts env).trace ∧
          lastAct? (RunPostgresWithOptions opts env).trace = some (Act.fatalf m)) ∧
      (∀ (opts : List RunOption) (env : DockerEnv) (m : String), env.poolErr = none →
        env.runErr = none → (NewDynamoDBWithOptions opts env).outcome = Outcome.fatal m →
        Act.purge ∈ (NewDynamoDBWithOptions opts env).trace ∧
          lastAct? (NewDynamoDBWithOptions opts env).trace = some (Act.fatalf m)) ∧
      (∀ (opts : List RunOption) (env : DockerEnv) (m : String), env.poolErr = none →
        env.runErr = none → (Minio.RunWithOptions opts env).outcome = Outcome.fatal m →
        Act.purge ∈ (Minio.RunWithOptions opts env).trace ∧
          lastAct? (Minio.RunWithOptions opts env).trace = some (Act.fatalf m)) ∧
      (∀ (opts : List RunOption) (env : DockerEnv) (m : String), env.poolErr = none →
        env.runErr = none → (RabbitMQ.RunWithOptions opts env).outcome = Outcome.fatal m →
        Act.purge ∈ (RabbitMQ.RunWithOptions opts env).trace ∧
          lastAct? (RabbitMQ.RunWithOptions opts env).trace = some (Act.fatalf m))) ∧
    ((∀ (opts : List RunOption) (env : DockerEnv),
        env.poolErr ≠ none ∨ env.runErr ≠ none →
        Act.purge ∉ (NewRedisWithOptions opts env).trace) ∧
      (∀ (opts : List RunOption) (env : DockerEnv),
        env.poolErr ≠ none ∨ env.runErr ≠ none →
        Act.purge ∉ (NewMemcachedWithOptions opts env).trace) ∧
      (∀ (opts : List RunOption) (env : DockerEnv),
        env.poolErr ≠ none ∨ env.runErr ≠ none →
        Act.purge ∉ (RunMySQLWithOptions opts env).trace) ∧
      (∀ (opts : List RunOption) (env : DockerEnv),
        env.poolErr ≠ none ∨ env.runErr ≠ none →
        Act.purge ∉ (RunPostgresWithOptions opts env).trace) ∧
      (∀ (opts : List RunOption) (env : DockerEnv),
        env.poolErr ≠ none ∨ env.runErr ≠ none →
        Act.purge ∉ (NewDynamoDBWithOptions opts env).trace) ∧
      (∀ (opts : List RunOption) (env : DockerEnv),
        env.poolErr ≠ none ∨ env.runErr ≠ none →
        Act.purge ∉ (Minio.RunWithOptions opts env).trace) ∧
      (∀ (opts : List RunOption) (env : DockerEnv),
        env.poolErr ≠ none ∨ env.runErr ≠ none →
        Act.purge ∉ (RabbitMQ.RunWithOptions opts env).trace)) := by
  constructor
  · refine ⟨?_, ?_, ?_, ?_, ?_, ?_, ?_⟩ <;>
    · intro opts env m h1 h2 hf
      rcases env with ⟨pe, re, hp, ce⟩
      cases h1; cases h2
      by_cases hhp : hp = ""
      · simp [NewRedisWithOptions, NewMemcachedWithOptions, RunMySQLWithOptions,
          RunPostgresWithOptions, RunDockerDB, NewDynamoDBWithOptions,
          Minio.RunWithOptions, RabbitMQ.RunWithOptions, hhp] at hf
        subst hf
        constructor <;>
          simp [NewRedisWithOptions, NewMemcachedWithOptions, RunMySQLWithOptions,
            RunPostgresWithOptions, RunDockerDB, NewDynamoDBWithOptions,
            Minio.RunWithOptions, RabbitMQ.RunWithOptions, hhp, lastAct?]
      · cases ce with
        | some e =>
          simp [NewRedisWithOptions, NewMemcachedWithOptions, RunMySQLWithOptions,
            RunPostgresWithOptions, RunDockerDB, NewDynamoDBWithOptions,
            Minio.RunWithOptions, RabbitMQ.RunWithOptions, hhp] at hf
          subst hf
          constructor <;>
            simp [NewRedisWithOptions, NewMemcachedWithOptions, RunMySQLWithOptions,
              RunPostgresWithOptions, RunDockerDB, NewDynamoDBWithOptions,
              Minio.RunWithOptions, RabbitMQ.RunWithOptions, hhp, lastAct?]
        | none =>
          simp [NewRedisWithOptions, NewMemcachedWithOptions, RunMySQLWithOptions,
            RunPostgresWithOptions, RunDockerDB, NewDynamoDBWithOptions,
            Minio.RunWithOptions, RabbitMQ.RunWithOptions, hhp] at hf
  · refine ⟨?_, ?_, ?_, ?_, ?_, ?_, ?_⟩ <;>
    · intro opts env h
      rcases env with ⟨pe, re, hp, ce⟩
      cases pe with
      | some e =>
        simp [NewRedisWithOptions, NewMemcachedWithOptions, RunMySQLWithOptions,
          RunPostgresWithOptions, RunDockerDB, NewDynamoDBWithOptions,
          Minio.RunWithOptions, RabbitMQ.RunWithOptions]
      | none =>
        cases re with
        | some e =>
          simp [NewRedisWithOptions, NewMemcachedWithOptions, RunMySQLWithOptions,
            RunPostgresWithOptions, RunDockerDB, NewDynamoDBWithOptions,
            Minio.RunWithOptions, RabbitMQ.RunWithOptions]
        | none => simp at h

/-- Witness for C9: with no host port assigned the redis helper purges before
its final `Fatalf`; when pool creation fails (the container never started) no
purge appears in its trace. -/
theorem purge_on_failure_after_start_witness :
    (Act.purge ∈ (NewRedisWithOptions [] noPortEnv).trace ∧
      lastAct? (NewRedisWithOptions [] noPortEnv).trace =
        some (Act.fatalf "no host port was assigned for the redis container")) ∧
    Act.purge ∉ (NewRedisWithOptions [] poolFailEnv).trace :=
  ⟨purge_on_failure_after_start.1.1 [] noPortEnv
      "no host port was assigned for the redis container" rfl rfl (by decide),
   purge_on_failure_after_start.2.1 [] poolFailEnv (Or.inl (by decide))⟩

theorem getEnvValueLoop_not_found (p : String) (l : List String)
    (h : ∀ v ∈ l, ¬ beginsWith p v) : getEnvValueLoop p l = "" := by
  induction l with
  | nil => rfl
  | cons v rest ih =>
    have hv := h v (List.mem_cons_self _ _)
    rw [getEnvValueLoop, if_neg (by simpa [beginsWith] using hv)]
    exact ih fun u hu => h u (List.mem_cons_of_mem _ hu)

theorem getEnvValueLoop_found (p : String) (pre : List String) (v : String)
    (post : List String) (hpre : ∀ u ∈ pre, ¬ beginsWith p u) (hv : beginsWith p v) :
    getEnvValueLoop p (pre ++ v :: post) = strDrop v p.length := by
  induction pre with
  | nil =>
    rw [List.nil_append, getEnvValueLoop, if_pos (by simpa [beginsWith] using hv)]
  | cons u rest ih =>
    rw [List.cons_append, getEnvValueLoop,
      if_neg (by simpa [beginsWith] using hpre u (List.mem_cons_self _ _))]
    exact ih fun u' hu' => hpre u' (List.mem_cons_of_mem _ hu')

theorem dropWhile_past_clean_chars (l1 l2 : List Char)
    (h : ∀ c ∈ l1, c ≠ '=') :
    (l1 ++ '=' :: l2).dropWhile (fun c => c ≠ '=') = '=' :: l2 := by
  induction l1 with
  | nil => simp [List.dropWhile]
  | cons c rest ih =>
    have hc : c ≠ '=' := h c (List.mem_cons_self _ _)
    have hdec : decide (c ≠ '=') = true := decide_eq_true hc
    simp only [List.cons_append, List.dropWhile, hdec, List.append_eq]
    exact ih fun c' hc' => h c' (List.mem_cons_of_mem _ hc')

theorem strDrop_match_eq_textAfterFirstEq (key v : String)
    (hkey : ∀ c ∈ key.data, c ≠ '=') (hv : beginsWith (key ++ "=") v) :
    strDrop v (key ++ "=").length = textAfterFirstEq v := by
  obtain ⟨hlen, htake⟩ := hv
  have hdata : v.data.take (key ++ "=").length = key.data ++ ['='] := by
    have h1 := congrArg String.data htake
    have h2 : (key ++ "=").data = key.data ++ ['='] := by
      cases key with
      | mk l => rfl
    simpa [strTake, h2] using h1
  have hsplit : v.data = key.data ++ '=' :: v.data.drop ((key ++ "=").length) := by
    conv_lhs => rw [← List.take_append_drop ((key ++ "=").length) v.data]
    rw [hdata]
    simp
  unfold strDrop textAfterFirstEq
  generalize hl : v.data.drop ((key ++ "=").length) = l at hsplit ⊢
  rw [hsplit, dropWhile_past_clean_chars key.data l hkey]
  simp

/-- **C8, counterexample.** The claim reads `GetEnvValue` as returning the
text after the *first* `=` of the matching element, for every key.  For the
key `A=B` (a key containing `=`) and the element `A=B=x`, the code returns
the remainder after the whole `A=B=` head, namely `x`, while the text after
the element's first `=` is `B=x`. -/
theorem getEnvValue_counterexample :
    GetEnvValue ["A=B=x"] "A=B" = "x" ∧
    textAfterFirstEq "A=B=x" = "B=x" ∧
    ("x" : String) ≠ "B=x" := by
  refine ⟨by decide, by decide, by decide⟩

/-- **C8, amended.** `GetEnvValue env key` returns the remainder, after the
head `key ++ "="`, of the first element of `env` that begins with
`key ++ "="`, and `""` when no element does; when `key` itself contains no
`=` this remainder is exactly the text after the first `=` of that element
(the claim's phrasing).  An element whose variable name merely shares a head
with `key` (e.g. `MY_VARIABLE` for key `MY_VAR`) is never matched.  The
MySQL, PostgreSQL and MinIO helpers embed exactly these values — read from
the `Env` of the configuration *after* option merging — in the DSN or the
client credentials they hand back. -/
theorem getEnvValue_spec :
    (∀ (env : List String) (key : String),
      (∀ v ∈ env, ¬ beginsWith (key ++ "=") v) → GetEnvValue env key = "") ∧
    (∀ (pre : List String) (v : String) (post : List String) (key : String),
      (∀ u ∈ pre, ¬ beginsWith (key ++ "=") u) → beginsWith (key ++ "=") v →
      GetEnvValue (pre ++ v :: post) key = strDrop v (key ++ "=").length) ∧
    (∀ (key v : String), (∀ c ∈ key.data, c ≠ '=') → beginsWith (key ++ "=") v →
      strDrop v (key ++ "=").length = textAfterFirstEq v) ∧
    (GetEnvValue ["MY_VAR=123", "MY_VARIABLE=456"] "MY_VAR" = "123" ∧
      GetEnvValue ["MY_VARIABLE=456"] "MY_VAR" = "" ∧
      GetEnvValue ["MY_VAR=123", "MY_VARIABLE=456"] "MY_VARIABLE" = "456") ∧
    (∀ (opts : List RunOption) (env : DockerEnv), env.poolErr = none →
      env.runErr = none → env.hostPort ≠ "" → env.connectErr = none →
      (RunMySQLWithOptions opts env).outcome =
        Outcome.ok
          ⟨mysqlDSN
             (GetEnvValue (applyRunOptions mysqlDefaultRunOpts opts).env "MYSQL_ROOT_PASSWORD")
             (GetEnvValue (applyRunOptions mysqlDefaultRunOpts opts).env "MYSQL_DATABASE")
             env.hostPort, true⟩
          (dbCleanupKind "mysql")) ∧
    (∀ (opts : List RunOption) (env : DockerEnv), env.poolErr = none →
      env.runErr = none → env.hostPort ≠ "" → env.connectErr = none →
      (RunPostgresWithOptions opts env).outcome =
        Outcome.ok
          ⟨postgresDSN
             (GetEnvValue (applyRunOptions postgresDefaultRunOpts opts).env "POSTGRES_PASSWORD")
             (GetEnvValue (applyRunOptions postgresDefaultRunOpts opts).env "POSTGRES_DB")
             env.hostPort, true⟩
          (dbCleanupKind "postgres")) ∧
    (∀ (opts : List RunOption) (env : DockerEnv), env.poolErr = none →
      env.runErr = none → env.hostPort ≠ "" → env.connectErr = none →
      (Minio.RunWithOptions opts env).outcome =
        Outcome.ok
          ⟨"http://localhost:" ++ dropLeading "localhost:" env.hostPort,
           GetEnvValue (applyRunOptions minioDefaultRunOpts opts).env "MINIO_ROOT_USER",
           GetEnvValue (applyRunOptions minioDefaultRunOpts opts).env "MINIO_ROOT_PASSWORD",
           true⟩
          minioCleanupKind) := by
  refine ⟨?_, ?_, strDrop_match_eq_textAfterFirstEq,
    ⟨by decide, by decide, by decide⟩, ?_, ?_, ?_⟩
  · intro env key h
    exact getEnvValueLoop_not_found (key ++ "=") env h
  · intro pre v post key hpre hv
    exact getEnvValueLoop_found (key ++ "=") pre v post hpre hv
  all_goals
  · intro opts env h1 h2 h3 h4
    rcases env with ⟨pe, re, hp, ce⟩
    cases h1; cases h2; cases h4
    simp only [ne_eq] at h3
    simp [RunMySQLWithOptions, RunPostgresWithOptions, RunDockerDB,
      Minio.RunWithOptions, h3, dbConnect, minioConnect]

/-- Witness for the amended C8: at a concrete env slice the matching element
is found past a shorter-named variable, the remainder coincides with the text
after the first `=`, and the MySQL DSN embeds the merged-env credentials on a
concrete successful run. -/
theorem getEnvValue_spec_witness :
    GetEnvValue (["MY_VARIABLE=456"] ++ "MY_VAR=123" :: []) "MY_VAR" =
      strDrop "MY_VAR=123" ("MY_VAR" ++ "=").length ∧
    strDrop "MY_VAR=123" ("MY_VAR" ++ "=").length = textAfterFirstEq "MY_VAR=123" ∧
    (RunMySQLWithOptions [] goodDockerEnv).outcome =
      Outcome.ok
        ⟨mysqlDSN (GetEnvValue mysqlDefaultRunOpts.env "MYSQL_ROOT_PASSWORD")
           (GetEnvValue mysqlDefaultRunOpts.env "MYSQL_DATABASE") "localhost:6379", true⟩
        (dbCleanupKind "mysql") := by
  refine ⟨?_, ?_, ?_⟩
  · exact getEnvValue_spec.2.1 ["MY_VARIABLE=456"] "MY_VAR=123" [] "MY_VAR"
      (by decide) (by decide)
  · exact getEnvValue_spec.2.2.1 "MY_VAR" "MY_VAR=123" (by decide) (by decide)
  · exact getEnvValue_spec.2.2.2.2.1 [] goodDockerEnv rfl rfl (by decide) rfl

theorem uploadLoop_put_only (putErr : String → String → String → Option String)
    (b : String) (objects : List (String × String)) :
    ∀ c ∈ (uploadLoop putErr b objects).1, c.isPutObject = true := by
  induction objects with
  | nil => intro c hc; simp [uploadLoop] at hc
  | cons kv rest ih =>
    intro c hc
    obtain ⟨k, d⟩ := kv
    cases h : putErr b k d with
    | some e =>
      simp [uploadLoop, UploadObject, h] at hc
      subst hc; rfl
    | none =>
      simp only [uploadLoop, UploadObject, h] at hc
      rcases List.mem_cons.mp hc with hc | hc
      · subst hc; rfl
      · exact ih c hc

/-- **C10.** `PrepBucket` is idempotent: when the bucket already exists
(`HeadBucket` succeeds) it issues no `CreateBucket` call, changes nothing and
returns `nil`; running `PrepBucket` a second time on the state left by a
first run yields the same state and the same result as the first run.
`PrepS3Objects` relies on this by unconditionally performing the `PrepBucket`
calls first: its call trace is the `PrepBucket` trace followed only by
`PutObject` uploads. -/
theorem prepBucket_idempotent :
    (∀ (createErr : String → Option String) (s : S3State) (b : String),
      b ∈ s.buckets →
      PrepBucket createErr s b = ⟨s, none, [S3Call.headBucket b]⟩) ∧
    (∀ (createErr : String → Option String) (s : S3State) (b : String),
      (PrepBucket createErr (PrepBucket createErr s b).state b).state =
          (PrepBucket createErr s b).state ∧
        (PrepBucket createErr (PrepBucket createErr s b).state b).err =
          (PrepBucket createErr s b).err) ∧
    (∀ (createErr : String → Option String)
       (putErr : String → String → String → Option String) (s : S3State)
       (b : String) (objects : List (String × String)),
      ∃ uploads, (PrepS3Objects createErr putErr s b objects).calls =
          (PrepBucket createErr s b).calls ++ uploads ∧
        ∀ c ∈ uploads, c.isPutObject = true) := by
  refine ⟨?_, ?_, ?_⟩
  · intro createErr s b hb
    unfold PrepBucket
    rw [if_pos hb]
  · intro createErr s b
    by_cases hb : b ∈ s.buckets
    · simp [PrepBucket, hb]
    · cases hc : createErr b with
      | none => simp [PrepBucket, hb, hc]
      | some e => simp [PrepBucket, hb, hc]
  · intro createErr putErr s b objects
    unfold PrepS3Objects
    cases h : (PrepBucket createErr s b).err with
    | some e =>
      exact ⟨[], by simp [h], by intro c hc; simp at hc⟩
    | none =>
      refine ⟨(uploadLoop putErr b objects).1, by simp [h],
        uploadLoop_put_only putErr b objects⟩

/-- Witness for C10: on a state already holding bucket `b`, `PrepBucket`
changes nothing and only heads the bucket; re-running it after a fresh create
repeats the state and result; and a concrete `PrepS3Objects` run heads (and
creates) the bucket before its single upload. -/
theorem prepBucket_idempotent_witness :
    PrepBucket (fun _ => none) ⟨["b"]⟩ "b" = ⟨⟨["b"]⟩, none, [S3Call.headBucket "b"]⟩ ∧
    ((PrepBucket (fun _ => none) (PrepBucket (fun _ => none) ⟨[]⟩ "b").state "b").state =
        (PrepBucket (fun _ => none) ⟨[]⟩ "b").state ∧
      (PrepBucket (fun _ => none) (PrepBucket (fun _ => none) ⟨[]⟩ "b").state "b").err =
        (PrepBucket (fun _ => none) ⟨[]⟩ "b").err) ∧
    (∃ uploads,
      (PrepS3Objects (fun _ => none) (fun _ _ _ => none) ⟨[]⟩ "b" [("k", "v")]).calls =
        (PrepBucket (fun _ => none) ⟨[]⟩ "b").calls ++ uploads ∧
      ∀ c ∈ uploads, c.isPutObject = true) :=
  ⟨prepBucket_idempotent.1 (fun _ => none) ⟨["b"]⟩ "b" (by decide),
   prepBucket_idempotent.2.1 (fun _ => none) ⟨[]⟩ "b",
   prepBucket_idempotent.2.2 (fun _ => none) (fun _ _ _ => none) ⟨[]⟩ "b" [("k", "v")]⟩
